import Mathlib

/-!
# Emerson/Vertiv R48 CAN controller (emerson-vertiv-controller.cpp)

A shallow embedding of the CAN protocol layer of the sketch: the float codec,
the eight write commands, the read request, the frame parser, the control
loop with its polling sequencer and settling-window expiry check, and the HTTP
handlers of the write routes and of the status route `/data`.

Conventions of the embedding

* A `float` is carried as its 32-bit IEEE-754 bit pattern (a `Nat` below `2^32`).
  The sketch never does arithmetic on the values it moves between the wire and
  its globals; it only copies them through a `union { float f; byte b[4]; }`.
  The handlers compare a float with constants; these comparisons are taken on
  the exact rational value the pattern denotes.
* A `byte` is a `Nat` below `256`; an `unsigned long` is a `Nat` below `2^32`
  (the ESP8266 is a 32-bit little-endian target) and unsigned subtraction is
  taken modulo `2^32`.
* `millis()`, the status returned by `CAN0.sendMsgBuf` and the frames waiting in
  the CAN controller are inputs supplied by the environment.
* `Serial` logging has no effect on the modelled state and is left out.
-/

namespace Vertiv

/-! ## Constants -/

/-- Source line 48: `const long VERTIV_COMMAND_ID = 0x06080783;` -/
def VERTIV_COMMAND_ID : Nat := 0x06080783

/-- Source line 49: `const long VERTIV_READ_REQUEST_ID = 0x06000783;` -/
def VERTIV_READ_REQUEST_ID : Nat := 0x06000783

/-- Source line 50: `const long VERTIV_RESPONSE_ID = 0x860F8003;`, compared at line 862
after the cast `(unsigned long) VERTIV_RESPONSE_ID`, which is `0x860F8003` again. -/
def VERTIV_RESPONSE_ID : Nat := 0x860F8003

/-- Enumerator `OUTPUT_VOLTAGE = 0x01`. -/
def OUTPUT_VOLTAGE : Nat := 0x01
/-- Enumerator `OUTPUT_CURRENT = 0x02`. -/
def OUTPUT_CURRENT : Nat := 0x02
/-- Enumerator `OUTPUT_CURRENT_LIMIT = 0x03`. -/
def OUTPUT_CURRENT_LIMIT : Nat := 0x03
/-- Enumerator `TEMPERATURE = 0x04`. -/
def TEMPERATURE : Nat := 0x04
/-- Enumerator `SUPPLY_VOLTAGE = 0x05`. -/
def SUPPLY_VOLTAGE : Nat := 0x05
/-- Enumerator `SET_PERMANENT_VOLTAGE_CMD = 0x24`. -/
def SET_PERMANENT_VOLTAGE_CMD : Nat := 0x24
/-- Enumerator `SET_PERMANENT_CURRENT_LIMIT_CMD = 0x19`. -/
def SET_PERMANENT_CURRENT_LIMIT_CMD : Nat := 0x19
/-- Enumerator `SET_PERMANENT_MAX_INPUT_CURRENT_CMD = 0x1A`. -/
def SET_PERMANENT_MAX_INPUT_CURRENT_CMD : Nat := 0x1A

/-- Source line 78: `const unsigned long PERMANENT_COMMAND_DELAY = 45000;` -/
def PERMANENT_COMMAND_DELAY : Nat := 45000

/-- Source line 518: `const unsigned long POLLING_INTERVAL = 5000;` -/
def POLLING_INTERVAL : Nat := 5000

/-- Source line 519: `const unsigned long CURRENT_LIMIT_DELAY = 1000;` -/
def CURRENT_LIMIT_DELAY : Nat := 1000

/-- Status `CAN_OK` of the mcp_can library (`#define CAN_OK (0)`), the value
`sendMsgBuf` returns when the controller accepted the frame. -/
def CAN_OK : Nat := 0

/-- Width of `unsigned long` on the target: values live modulo `2^32`. -/
def ULONG_MOD : Nat := 4294967296

/-- Unsigned 32-bit subtraction `a - b` as the target computes it for two
`unsigned long` operands. -/
def usub (a b : Nat) : Nat := (a % ULONG_MOD + ULONG_MOD - b % ULONG_MOD) % ULONG_MOD

/-! ## Float codec -/

/-- The storage of `union { float f; byte b[4]; }`: four bytes, `b0` at the
lowest address. -/
structure FloatBytes where
  b0 : Nat
  b1 : Nat
  b2 : Nat
  b3 : Nat
  deriving DecidableEq, Repr

/-- Writing the `f` member (`converter.f = value`): the bytes of the bit pattern
in the little-endian layout of the target. -/
def FloatBytes.ofFloat (bits : Nat) : FloatBytes :=
  { b0 := bits % 256
    b1 := bits / 256 % 256
    b2 := bits / 65536 % 256
    b3 := bits / 16777216 % 256 }

/-- Reading the `f` member (`return converter.f`) back from the four bytes. -/
def FloatBytes.toFloat (u : FloatBytes) : Nat :=
  u.b0 + 256 * u.b1 + 65536 * u.b2 + 16777216 * u.b3

/-- Function `bytesToFloat` (lines 306-314): `converter.b[3] = b[0]; converter.b[2] = b[1];
converter.b[1] = b[2]; converter.b[0] = b[3]; return converter.f;` -/
def bytesToFloat (b : List Nat) : Nat :=
  FloatBytes.toFloat
    { b3 := b.getD 0 0
      b2 := b.getD 1 0
      b1 := b.getD 2 0
      b0 := b.getD 3 0 }

/-- A bit pattern denotes a finite float when its exponent field is not all ones. -/
def isFiniteBits (bits : Nat) : Bool := bits / 8388608 % 256 != 255

/-- The rational value of a finite float32 bit pattern (`none` for infinities
and NaNs): sign bit, 8-bit biased exponent, 23-bit fraction. -/
def float32Value (bits : Nat) : Option ℚ :=
  let sign : ℚ := if bits / 2147483648 % 2 = 1 then -1 else 1
  let e := bits / 8388608 % 256
  let m := bits % 8388608
  if e = 255 then none
  else if e = 0 then some (sign * (m : ℚ) / (2 : ℚ) ^ 149)
  else some (sign * ((8388608 + m : Nat) : ℚ) * (2 : ℚ) ^ ((e : Int) - 150))

/-! ## Program state and CAN bus -/

/-- A call `CAN0.sendMsgBuf(id, ext, len, data)`. -/
structure TxFrame where
  id : Nat
  ext : Nat
  len : Nat
  data : List Nat
  deriving DecidableEq, Repr

/-- What `CAN0.readMsgBuf(&rxId, &len, rxBuf)` delivers. -/
structure RxFrame where
  rxId : Nat
  len : Nat
  rxBuf : List Nat
  deriving DecidableEq, Repr

/-- The global variables of the sketch (lines 68-76 and 516-517). -/
structure Globals where
  outputVoltage : Nat
  outputCurrent : Nat
  outputCurrentLimit : Nat
  temperature : Nat
  supplyVoltage : Nat
  isCommandPending : Bool
  commandSentTime : Nat
  lastRequestTime : Nat
  readState : Int
  deriving DecidableEq, Repr

/-- The sketch together with its CAN controller: the globals, the frames waiting
in the controller (oldest first) and the log of `sendMsgBuf` calls made so far
(oldest first). -/
structure Sys where
  g : Globals
  rx : List RxFrame
  tx : List TxFrame
  deriving DecidableEq, Repr

/-- The globals as initialised at lines 68-76 and 516-517. -/
def Globals.init : Globals :=
  { outputVoltage := 0, outputCurrent := 0, outputCurrentLimit := 0, temperature := 0,
    supplyVoltage := 0, isCommandPending := false, commandSentTime := 0,
    lastRequestTime := 0, readState := 0 }

/-- Initial system: initial globals, nothing received, nothing sent. -/
def Sys.init : Sys := { g := Globals.init, rx := [], tx := [] }

/-! ## Write commands and the read request

Each function takes the status `sndStat` that `CAN0.sendMsgBuf` returns for its
frame and the value `now` that `millis()` returns if it is read. -/

/-- Function `setVertivVoltagePermanent` (lines 570-594). -/
def setVertivVoltagePermanent (voltage : Nat) (sndStat now : Nat) (s : Sys) : Sys :=
  let converter := FloatBytes.ofFloat voltage
  let data := [0x03, 0xF0, 0x00, SET_PERMANENT_VOLTAGE_CMD,
    converter.b3, converter.b2, converter.b1, converter.b0]
  let s1 := { s with tx := s.tx ++ [{ id := VERTIV_COMMAND_ID, ext := 1, len := 8, data := data }] }
  if sndStat = CAN_OK then
    { s1 with g := { s1.g with isCommandPending := true, commandSentTime := now } }
  else s1

/-- Function `setVertivVoltageOnline` (lines 603-622). -/
def setVertivVoltageOnline (voltage : Nat) (sndStat : Nat) (s : Sys) : Sys :=
  let converter := FloatBytes.ofFloat voltage
  let data := [0x03, 0xF0, 0x00, 0x21,
    converter.b3, converter.b2, converter.b1, converter.b0]
  let s1 := { s with tx := s.tx ++ [{ id := VERTIV_COMMAND_ID, ext := 1, len := 8, data := data }] }
  if sndStat = CAN_OK then s1 else s1

/-- Function `setVertivCurrentPermanent` (lines 631-655). -/
def setVertivCurrentPermanent (currentPercentage : Nat) (sndStat now : Nat) (s : Sys) : Sys :=
  let converter := FloatBytes.ofFloat currentPercentage
  let data := [0x03, 0xF0, 0x00, SET_PERMANENT_CURRENT_LIMIT_CMD,
    converter.b3, converter.b2, converter.b1, converter.b0]
  let s1 := { s with tx := s.tx ++ [{ id := VERTIV_COMMAND_ID, ext := 1, len := 8, data := data }] }
  if sndStat = CAN_OK then
    { s1 with g := { s1.g with isCommandPending := true, commandSentTime := now } }
  else s1

/-- Function `setVertivCurrentOnline` (lines 664-683). -/
def setVertivCurrentOnline (currentPercentage : Nat) (sndStat : Nat) (s : Sys) : Sys :=
  let converter := FloatBytes.ofFloat currentPercentage
  let data := [0x03, 0xF0, 0x00, 0x22,
    converter.b3, converter.b2, converter.b1, converter.b0]
  let s1 := { s with tx := s.tx ++ [{ id := VERTIV_COMMAND_ID, ext := 1, len := 8, data := data }] }
  if sndStat = CAN_OK then s1 else s1

/-- Function `setVertivMaxInputCurrent` (lines 693-717). -/
def setVertivMaxInputCurrent (current : Nat) (sndStat now : Nat) (s : Sys) : Sys :=
  let converter := FloatBytes.ofFloat current
  let data := [0x03, 0xF0, 0x00, SET_PERMANENT_MAX_INPUT_CURRENT_CMD,
    converter.b3, converter.b2, converter.b1, converter.b0]
  let s1 := { s with tx := s.tx ++ [{ id := VERTIV_COMMAND_ID, ext := 1, len := 8, data := data }] }
  if sndStat = CAN_OK then
    { s1 with g := { s1.g with isCommandPending := true, commandSentTime := now } }
  else s1

/-- Function `readVertivSetting` (lines 725-742); the parameter is a `byte`. -/
def readVertivSetting (measurementNo : Nat) (sndStat : Nat) (s : Sys) : Sys :=
  let data := [0x01, 0xF0, 0x00, measurementNo % 256, 0x00, 0x00, 0x00, 0x00]
  let s1 := { s with tx := s.tx ++ [{ id := VERTIV_READ_REQUEST_ID, ext := 1, len := 8, data := data }] }
  if sndStat = CAN_OK then s1 else s1

/-- Function `setVertivFanSpeed` (lines 748-771). -/
def setVertivFanSpeed (fullSpeed : Bool) (sndStat now : Nat) (s : Sys) : Sys :=
  let data := [0x03, 0xF0, 0x00, 0x33, if fullSpeed then 0x01 else 0x00, 0x00, 0x00, 0x00]
  let s1 := { s with tx := s.tx ++ [{ id := VERTIV_COMMAND_ID, ext := 1, len := 8, data := data }] }
  if sndStat = CAN_OK then
    { s1 with g := { s1.g with isCommandPending := true, commandSentTime := now } }
  else s1

/-- Function `setVertivWalkIn` (lines 777-800); `enable` is the source's parameter `on`. -/
def setVertivWalkIn (enable : Bool) (sndStat now : Nat) (s : Sys) : Sys :=
  let data := [0x03, 0xF0, 0x00, 0x32, if enable then 0x01 else 0x00, 0x00, 0x00, 0x00]
  let s1 := { s with tx := s.tx ++ [{ id := VERTIV_COMMAND_ID, ext := 1, len := 8, data := data }] }
  if sndStat = CAN_OK then
    { s1 with g := { s1.g with isCommandPending := true, commandSentTime := now } }
  else s1

/-- Function `setVertivWalkInTime` (lines 806-831). -/
def setVertivWalkInTime (seconds : Nat) (sndStat now : Nat) (s : Sys) : Sys :=
  let converter := FloatBytes.ofFloat seconds
  let data := [0x03, 0xF0, 0x00, 0x29,
    converter.b3, converter.b2, converter.b1, converter.b0]
  let s1 := { s with tx := s.tx ++ [{ id := VERTIV_COMMAND_ID, ext := 1, len := 8, data := data }] }
  if sndStat = CAN_OK then
    { s1 with g := { s1.g with isCommandPending := true, commandSentTime := now } }
  else s1

/-- The eight write commands with their argument (a float bit pattern or a flag). -/
inductive WriteCommand where
  | voltagePermanent (voltage : Nat)
  | voltageOnline (voltage : Nat)
  | currentPermanent (currentPercentage : Nat)
  | currentOnline (currentPercentage : Nat)
  | maxInputCurrent (current : Nat)
  | walkInTime (seconds : Nat)
  | fanSpeed (fullSpeed : Bool)
  | walkIn (enable : Bool)
  deriving DecidableEq, Repr

/-- Calling the function of a write command. -/
def WriteCommand.run (c : WriteCommand) (sndStat now : Nat) (s : Sys) : Sys :=
  match c with
  | .voltagePermanent v => setVertivVoltagePermanent v sndStat now s
  | .voltageOnline v => setVertivVoltageOnline v sndStat s
  | .currentPermanent p => setVertivCurrentPermanent p sndStat now s
  | .currentOnline p => setVertivCurrentOnline p sndStat s
  | .maxInputCurrent a => setVertivMaxInputCurrent a sndStat now s
  | .walkInTime t => setVertivWalkInTime t sndStat now s
  | .fanSpeed f => setVertivFanSpeed f sndStat now s
  | .walkIn o => setVertivWalkIn o sndStat now s

/-- The six float-valued write commands, by kind. -/
inductive FloatKind where
  | voltagePermanent | voltageOnline | currentPermanent | currentOnline
  | maxInputCurrent | walkInTime
  deriving DecidableEq, Repr

/-- The write command of a float kind at an argument. -/
def FloatKind.cmd : FloatKind → Nat → WriteCommand
  | .voltagePermanent, x => .voltagePermanent x
  | .voltageOnline, x => .voltageOnline x
  | .currentPermanent, x => .currentPermanent x
  | .currentOnline, x => .currentOnline x
  | .maxInputCurrent, x => .maxInputCurrent x
  | .walkInTime, x => .walkInTime x

/-- The settling commands: every write command except the two online ones. -/
def WriteCommand.settles : WriteCommand → Bool
  | .voltageOnline _ => false
  | .currentOnline _ => false
  | _ => true

/-! ## Frame parser -/

/-- Lines 861-882 of `processIncomingCanMessages`: the acceptance test and the
update of the globals for one received frame. -/
def parseFrame (f : RxFrame) (g : Globals) : Globals :=
  if f.rxId = VERTIV_RESPONSE_ID ∧ f.len = 8 ∧ f.rxBuf.getD 0 0 = 0x41
      ∧ f.rxBuf.getD 1 0 = 0xF0 ∧ f.rxBuf.getD 2 0 = 0x00 then
    let receivedMeasurementNo := f.rxBuf.getD 3 0
    let floatBytes := [f.rxBuf.getD 4 0, f.rxBuf.getD 5 0, f.rxBuf.getD 6 0, f.rxBuf.getD 7 0]
    let receivedValue := bytesToFloat floatBytes
    if receivedMeasurementNo = OUTPUT_VOLTAGE then { g with outputVoltage := receivedValue }
    else if receivedMeasurementNo = OUTPUT_CURRENT then { g with outputCurrent := receivedValue }
    else if receivedMeasurementNo = OUTPUT_CURRENT_LIMIT then
      { g with outputCurrentLimit := receivedValue }
    else if receivedMeasurementNo = TEMPERATURE then { g with temperature := receivedValue }
    else if receivedMeasurementNo = SUPPLY_VOLTAGE then { g with supplyVoltage := receivedValue }
    else g
  else g

/-- Function `processIncomingCanMessages` (lines 836-884): a single `if (CAN0.checkReceive() ==
CAN_MSGAVAIL)`; when a frame waits, it is read from the controller and parsed. -/
def processIncomingCanMessages (s : Sys) : Sys :=
  match s.rx with
  | [] => s
  | f :: rest => { s with rx := rest, g := parseFrame f s.g }

/-! ## Control loop -/

/-- What the environment supplies during one pass of `loop()`: the values of the
`millis()` reads in program order and the statuses of the (at most two)
`sendMsgBuf` calls. -/
structure TickEnv where
  millisPoll : Nat
  millisStamp : Nat
  millisExpiry : Nat
  sndStat1 : Nat
  sndStat2 : Nat
  deriving DecidableEq, Repr

/-- Lines 526-552 of `loop()`: the polling sequencer. `millisPoll` is the clock
read in the delay comparison, `millisStamp` the one stored in `lastRequestTime`. -/
def loopPoll (e : TickEnv) (s : Sys) : Sys :=
  if !s.g.isCommandPending then
    if s.g.readState = 0 then
      if usub e.millisPoll s.g.lastRequestTime > POLLING_INTERVAL then
        let s1 := readVertivSetting OUTPUT_VOLTAGE e.sndStat1 s
        { s1 with g := { s1.g with readState := 1, lastRequestTime := e.millisStamp } }
      else s
    else if s.g.readState = 1 then
      if usub e.millisPoll s.g.lastRequestTime > 100 then
        let s1 := readVertivSetting OUTPUT_CURRENT e.sndStat1 s
        let s2 := readVertivSetting OUTPUT_CURRENT_LIMIT e.sndStat2 s1
        { s2 with g := { s2.g with readState := 2, lastRequestTime := e.millisStamp } }
      else s
    else if s.g.readState = 2 then
      if usub e.millisPoll s.g.lastRequestTime > CURRENT_LIMIT_DELAY then
        let s1 := readVertivSetting TEMPERATURE e.sndStat1 s
        let s2 := readVertivSetting SUPPLY_VOLTAGE e.sndStat2 s1
        { s2 with g := { s2.g with readState := 0, lastRequestTime := e.millisStamp } }
      else s
    else s
  else s

/-- Lines 554-559 of `loop()`: the expiry check of the settling window. -/
def loopExpiry (e : TickEnv) (s : Sys) : Sys :=
  if s.g.isCommandPending ∧ usub e.millisExpiry s.g.commandSentTime > PERMANENT_COMMAND_DELAY then
    { s with g := { s.g with isCommandPending := false, readState := 0 } }
  else s

/-- Function `loop()` (lines 521-560): receive, poll, expiry check. -/
def loop (e : TickEnv) (s : Sys) : Sys :=
  loopExpiry e (loopPoll e (processIncomingCanMessages s))

/-- A pass of `loop()` during which every `millis()` read returns `now`. -/
def TickEnv.instant (now sndStat1 sndStat2 : Nat) : TickEnv :=
  { millisPoll := now, millisStamp := now, millisExpiry := now,
    sndStat1 := sndStat1, sndStat2 := sndStat2 }

/-! ## Reference shapes taken from the specification -/

/-- The opcode the specification assigns to each write command. -/
def specOpcode : WriteCommand → Nat
  | .voltagePermanent _ => 0x24
  | .voltageOnline _ => 0x21
  | .currentPermanent _ => 0x19
  | .currentOnline _ => 0x22
  | .maxInputCurrent _ => 0x1A
  | .walkInTime _ => 0x29
  | .fanSpeed _ => 0x33
  | .walkIn _ => 0x32

/-- The four IEEE-754 bytes of a bit pattern, most-significant byte first. -/
def specFloatBytes (x : Nat) : List Nat :=
  [x / 2 ^ 24 % 256, x / 2 ^ 16 % 256, x / 2 ^ 8 % 256, x % 256]

/-- The four argument bytes the specification prescribes: the float most-significant
byte first, or the flag in the first byte followed by three zero bytes. -/
def specArgBytes : WriteCommand → List Nat
  | .voltagePermanent x => specFloatBytes x
  | .voltageOnline x => specFloatBytes x
  | .currentPermanent x => specFloatBytes x
  | .currentOnline x => specFloatBytes x
  | .maxInputCurrent x => specFloatBytes x
  | .walkInTime x => specFloatBytes x
  | .fanSpeed b => [if b then 0x01 else 0x00, 0x00, 0x00, 0x00]
  | .walkIn b => [if b then 0x01 else 0x00, 0x00, 0x00, 0x00]

/-- The frame the specification prescribes for a write command: COMMAND_ID, extended
flag, 8 data bytes `[0x03, 0xF0, 0x00, opcode, a0, a1, a2, a3]`. -/
def specWriteFrame (c : WriteCommand) : TxFrame :=
  { id := 0x06080783, ext := 1, len := 8,
    data := [0x03, 0xF0, 0x00, specOpcode c] ++ specArgBytes c }

/-- The frame the specification prescribes for a read request of measurement code `c`:
READ_REQUEST_ID, extended flag, data `[0x01, 0xF0, 0x00, c, 0, 0, 0, 0]`. -/
def specReadFrame (c : Nat) : TxFrame :=
  { id := 0x06000783, ext := 1, len := 8,
    data := [0x01, 0xF0, 0x00, c, 0x00, 0x00, 0x00, 0x00] }

/-- The three states of the polling sequencer named by the specification. -/
inductive PollState where
  | Idle | AwaitingCurrentBatch | AwaitingFinalBatch
  deriving DecidableEq, Repr

/-- The value of `readState` that stands for each state (comment at line 517). -/
def PollState.code : PollState → Int
  | .Idle => 0
  | .AwaitingCurrentBatch => 1
  | .AwaitingFinalBatch => 2

/-- The poll cycle of the specification: a state and the `lastAdvance` timestamp. -/
structure PollCycle where
  state : PollState
  lastAdvance : Nat
  deriving DecidableEq, Repr

/-- The transition table of the specification for a tick in which the settling window is
not pending: the measurement codes requested, in order, and the poll cycle afterwards.
`now - lastAdvance` is the difference of the two 32-bit clock values. -/
def specSequencer (pc : PollCycle) (now : Nat) : List Nat × PollCycle :=
  match pc.state with
  | .Idle =>
    if usub now pc.lastAdvance > 5000 then
      ([0x01], { state := .AwaitingCurrentBatch, lastAdvance := now })
    else ([], pc)
  | .AwaitingCurrentBatch =>
    if usub now pc.lastAdvance > 100 then
      ([0x02, 0x03], { state := .AwaitingFinalBatch, lastAdvance := now })
    else ([], pc)
  | .AwaitingFinalBatch =>
    if usub now pc.lastAdvance > 1000 then
      ([0x04, 0x05], { state := .Idle, lastAdvance := now })
    else ([], pc)

/-- A state whose settling window was armed at clock value 0 and is still pending. -/
def pendingSinceZero : Sys :=
  { Sys.init with g := { Globals.init with isCommandPending := true, commandSentTime := 0 } }

/-- The response frame `[0x41, 0xF0, 0x00, 0x01, 0x42, 0x52, 0x00, 0x00]`. -/
def frame525 : RxFrame :=
  { rxId := 0x860F8003, len := 8, rxBuf := [0x41, 0xF0, 0x00, 0x01, 0x42, 0x52, 0x00, 0x00] }

/-- A well-formed response frame carrying the unknown measurement code `0xFF`. -/
def frameFF : RxFrame :=
  { rxId := 0x860F8003, len := 8, rxBuf := [0x41, 0xF0, 0x00, 0xFF, 0x42, 0x52, 0x00, 0x00] }

/-- A state frozen mid-cycle: window pending since clock value 0, `readState = 1`, last
request at clock value 0. -/
def frozenMidCycle : Sys :=
  { Sys.init with g := { Globals.init with isCommandPending := true, readState := 1 } }

/-! ## HTTP handlers

The value of a float parameter arrives as the bit pattern that
`request->getParam(0)->value().toFloat()` returns; the comparisons of the handlers
are IEEE-754 comparisons on the value the pattern denotes. -/

/-- The value a float32 bit pattern denotes: a NaN, an infinity or a rational. -/
inductive FloatVal where
  | nan
  | negInf
  | posInf
  | fin (q : ℚ)
  deriving DecidableEq

/-- Decoding of a bit pattern: exponent field all ones gives an infinity (fraction zero)
or a NaN, anything else the finite value of `float32Value`. -/
def floatVal (bits : Nat) : FloatVal :=
  match float32Value bits with
  | some q => .fin q
  | none =>
    if bits % 8388608 ≠ 0 then .nan
    else if bits / 2147483648 % 2 = 1 then .negInf
    else .posInf

/-- IEEE-754 comparison `x > c` with a finite constant `c` (false for a NaN). -/
def FloatVal.gt (x : FloatVal) (c : ℚ) : Bool :=
  match x with
  | .fin q => decide (c < q)
  | .posInf => true
  | _ => false

/-- IEEE-754 comparison `x >= c` with a finite constant `c` (false for a NaN). -/
def FloatVal.ge (x : FloatVal) (c : ℚ) : Bool :=
  match x with
  | .fin q => decide (c ≤ q)
  | .posInf => true
  | _ => false

/-- IEEE-754 comparison `x <= c` with a finite constant `c` (false for a NaN). -/
def FloatVal.le (x : FloatVal) (c : ℚ) : Bool :=
  match x with
  | .fin q => decide (q ≤ c)
  | .negInf => true
  | _ => false

/-- The `double` literal `0.1` of lines 425 and 437 (`0x3FB999999999999A`), the double
nearest to one tenth. -/
def DOUBLE_0_1 : ℚ := 3602879701896397 / 36028797018963968

/-- The `double` literal `1.21` of lines 425 and 437 (`0x3FF35C28F5C28F5C`), the double
nearest to 121/100. -/
def DOUBLE_1_21 : ℚ := 1362338887279575 / 1125899906842624

/-- The reply handed to `request->send(code, contentType, body)`. -/
structure Response where
  code : Nat
  contentType : String
  body : String
  deriving DecidableEq, Repr

/-- Handler of `/set_perm_v` (lines 401-411) from line 403 on, given the float `voltage`
that line 402 obtains from the first parameter of the request (the lookup itself, which
fails on a request without parameters, is in `HttpWrite.serve`). `str` is the rendering
`String(float)` of the Arduino core. -/
def set_perm_v (str : Nat → String) (voltage sndStat now : Nat) (s : Sys) : Sys × Response :=
  if (floatVal voltage).gt 0 then
    let s1 := setVertivVoltagePermanent voltage sndStat now s
    let message := "Command sent: set_perm_v " ++ str voltage ++ ". Please wait "
      ++ Nat.repr (PERMANENT_COMMAND_DELAY / 1000) ++ " seconds for confirmation."
    (s1, { code := 200, contentType := "text/plain", body := message })
  else (s, { code := 400, contentType := "text/plain", body := "Invalid voltage value." })

/-- Handler of `/set_online_v` (lines 413-421) from line 415 on, given the float that line
414 obtains. -/
def set_online_v (str : Nat → String) (voltage sndStat : Nat) (s : Sys) : Sys × Response :=
  if (floatVal voltage).gt 0 then
    let s1 := setVertivVoltageOnline voltage sndStat s
    (s1, { code := 200, contentType := "text/plain",
           body := "Command sent: set_online_v " ++ str voltage })
  else (s, { code := 400, contentType := "text/plain", body := "Invalid voltage value." })

/-- Handler of `/set_perm_c` (lines 423-433) from line 425 on, given the float that line
424 obtains; the float is widened to `double` for the two comparisons. -/
def set_perm_c (str : Nat → String) (currentPercentage sndStat now : Nat) (s : Sys) :
    Sys × Response :=
  if (floatVal currentPercentage).ge DOUBLE_0_1 && (floatVal currentPercentage).le DOUBLE_1_21 then
    let s1 := setVertivCurrentPermanent currentPercentage sndStat now s
    let message := "Command sent: set_perm_c " ++ str currentPercentage ++ ". Please wait "
      ++ Nat.repr (PERMANENT_COMMAND_DELAY / 1000) ++ " seconds for confirmation."
    (s1, { code := 200, contentType := "text/plain", body := message })
  else (s, { code := 400, contentType := "text/plain", body := "Invalid current percentage." })

/-- Handler of `/set_online_c` (lines 435-443) from line 437 on, given the float that line
436 obtains. -/
def set_online_c (str : Nat → String) (currentPercentage sndStat : Nat) (s : Sys) :
    Sys × Response :=
  if (floatVal currentPercentage).ge DOUBLE_0_1 && (floatVal currentPercentage).le DOUBLE_1_21 then
    let s1 := setVertivCurrentOnline currentPercentage sndStat s
    (s1, { code := 200, contentType := "text/plain",
           body := "Command sent: set_online_c " ++ str currentPercentage })
  else (s, { code := 400, contentType := "text/plain", body := "Invalid current percentage." })

/-- Handler of `/set_diesel_input_c` (lines 445-453) from line 447 on, given the float that
line 446 obtains. -/
def set_diesel_input_c (str : Nat → String) (current sndStat now : Nat) (s : Sys) :
    Sys × Response :=
  if (floatVal current).ge 3 && (floatVal current).le 13 then
    let s1 := setVertivMaxInputCurrent current sndStat now s
    (s1, { code := 200, contentType := "text/plain",
           body := "Command sent: set_diesel_input_c " ++ str current })
  else (s, { code := 400, contentType := "text/plain",
             body := "Invalid current, valid values between 3 and 13." })

/-- Handler of `/set_fan_speed` (lines 455-472); `speed` is `none` when the request has no
`speed` parameter. -/
def set_fan_speed (speed : Option String) (sndStat now : Nat) (s : Sys) : Sys × Response :=
  match speed with
  | some speed =>
    if speed = "full" then
      let s1 := setVertivFanSpeed true sndStat now s
      let message := "Command sent: set fan to full speed. Please wait "
        ++ Nat.repr (PERMANENT_COMMAND_DELAY / 1000) ++ " seconds for confirmation."
      (s1, { code := 200, contentType := "text/plain", body := message })
    else if speed = "auto" then
      let s1 := setVertivFanSpeed false sndStat now s
      let message := "Command sent: set fan to auto. Please wait "
        ++ Nat.repr (PERMANENT_COMMAND_DELAY / 1000) ++ " seconds for confirmation."
      (s1, { code := 200, contentType := "text/plain", body := message })
    else (s, { code := 400, contentType := "text/plain", body := "Invalid fan speed command." })
  | none => (s, { code := 400, contentType := "text/plain", body := "Missing fan speed parameter." })

/-- Handler of `/set_walk_in` (lines 474-491); `state` is `none` when the request has no
`state` parameter. -/
def set_walk_in (state : Option String) (sndStat now : Nat) (s : Sys) : Sys × Response :=
  match state with
  | some state =>
    if state = "on" then
      let s1 := setVertivWalkIn true sndStat now s
      let message := "Command sent: set walk-in to ON. Please wait "
        ++ Nat.repr (PERMANENT_COMMAND_DELAY / 1000) ++ " seconds for confirmation."
      (s1, { code := 200, contentType := "text/plain", body := message })
    else if state = "off" then
      let s1 := setVertivWalkIn false sndStat now s
      let message := "Command sent: set walk-in to OFF. Please wait "
        ++ Nat.repr (PERMANENT_COMMAND_DELAY / 1000) ++ " seconds for confirmation."
      (s1, { code := 200, contentType := "text/plain", body := message })
    else (s, { code := 400, contentType := "text/plain", body := "Invalid walk-in state command." })
  | none =>
    (s, { code := 400, contentType := "text/plain", body := "Missing walk-in state parameter." })

/-- Handler of `/set_walk_in_time` (lines 493-502) from line 495 on, given the float that
line 494 obtains. -/
def set_walk_in_time (str : Nat → String) (seconds sndStat now : Nat) (s : Sys) :
    Sys × Response :=
  if (floatVal seconds).ge 0 then
    let s1 := setVertivWalkInTime seconds sndStat now s
    let message := "Command sent: set walk-in time to " ++ str seconds ++ ". Please wait "
      ++ Nat.repr (PERMANENT_COMMAND_DELAY / 1000) ++ " seconds for confirmation."
    (s1, { code := 200, contentType := "text/plain", body := message })
  else (s, { code := 400, contentType := "text/plain", body := "Invalid walk-in time value." })

/-- A write request that carries its argument: the route and, for a float route, the float
obtained from the first parameter, for `/set_fan_speed` and `/set_walk_in` the value of the
named parameter (`none` when `hasParam` is false). A request to a float route without any
parameter is not of this form; see `HttpWrite`. -/
inductive WriteRequest where
  | perm_v (value : Nat)
  | online_v (value : Nat)
  | perm_c (value : Nat)
  | online_c (value : Nat)
  | diesel_input_c (value : Nat)
  | walk_in_time (value : Nat)
  | fan_speed (speed : Option String)
  | walk_in (state : Option String)
  deriving DecidableEq, Repr

/-- Running the handler registered for the route of a write request that carries its
argument. -/
def WriteRequest.handle (str : Nat → String) (r : WriteRequest) (sndStat now : Nat) (s : Sys) :
    Sys × Response :=
  match r with
  | .perm_v v => set_perm_v str v sndStat now s
  | .online_v v => set_online_v str v sndStat s
  | .perm_c v => set_perm_c str v sndStat now s
  | .online_c v => set_online_c str v sndStat s
  | .diesel_input_c v => set_diesel_input_c str v sndStat now s
  | .walk_in_time v => set_walk_in_time str v sndStat now s
  | .fan_speed p => set_fan_speed p sndStat now s
  | .walk_in p => set_walk_in p sndStat now s

/-- A POST request to one of the eight write routes as the web server hands it to the
handler. For the six float routes the field is `none` when the request has no parameter at
all, so that `request->getParam(0)` is a null pointer, and `some bits` when it has one,
`bits` being the float that `getParam(0)->value().toFloat()` returns. For `/set_fan_speed`
and `/set_walk_in` the field is the value of the POST parameter `speed` or `state`, `none`
when `hasParam` is false. -/
inductive HttpWrite where
  | perm_v (param : Option Nat)
  | online_v (param : Option Nat)
  | perm_c (param : Option Nat)
  | online_c (param : Option Nat)
  | diesel_input_c (param : Option Nat)
  | walk_in_time (param : Option Nat)
  | fan_speed (speed : Option String)
  | walk_in (state : Option String)
  deriving DecidableEq, Repr

/-- The handler registered for the route, run on a request. The six float handlers call
`value()` on the pointer `getParam(0)` without testing it (lines 402, 414, 424, 436, 446,
494): on a request without parameters the call goes through a null pointer, the handler
does not complete and no reply is sent, which is the result `none`. -/
def HttpWrite.serve (str : Nat → String) (h : HttpWrite) (sndStat now : Nat) (s : Sys) :
    Option (Sys × Response) :=
  match h with
  | .perm_v none => none
  | .perm_v (some voltage) => some (set_perm_v str voltage sndStat now s)
  | .online_v none => none
  | .online_v (some voltage) => some (set_online_v str voltage sndStat s)
  | .perm_c none => none
  | .perm_c (some currentPercentage) => some (set_perm_c str currentPercentage sndStat now s)
  | .online_c none => none
  | .online_c (some currentPercentage) => some (set_online_c str currentPercentage sndStat s)
  | .diesel_input_c none => none
  | .diesel_input_c (some current) => some (set_diesel_input_c str current sndStat now s)
  | .walk_in_time none => none
  | .walk_in_time (some seconds) => some (set_walk_in_time str seconds sndStat now s)
  | .fan_speed speed => some (set_fan_speed speed sndStat now s)
  | .walk_in state => some (set_walk_in state sndStat now s)

/-- Conversion `(long)u` of an `unsigned long` on the 32-bit target. -/
def toLong (u : Nat) : Int :=
  if u % ULONG_MOD < 2147483648 then (u % ULONG_MOD : Nat) else (u % ULONG_MOD : Nat) - 4294967296

/-- A `long` result reduced to 32 bits in two's complement. -/
def wrapLong (i : Int) : Int := (i + 2147483648) % 4294967296 - 2147483648

/-- The fields of the JSON document the `/data` handler sends. The five measurements are
kept as bit patterns (the handler renders them with `String(x, 2)`). -/
structure StatusReport where
  outputVoltage : Nat
  outputCurrent : Nat
  outputCurrentLimit : Nat
  temperature : Nat
  supplyVoltage : Nat
  isCommandPending : Bool
  remainingTime : Int
  deriving DecidableEq, Repr

/-- Handler of `/data` (lines 373-399); `now` is the value of `millis()` at line 390. The
division of line 392 is only evaluated for a positive `remaining`, where the truncating
division of the target and `/` on `Int` agree. -/
def getData (now : Nat) (s : Sys) : StatusReport :=
  { outputVoltage := s.g.outputVoltage
    outputCurrent := s.g.outputCurrent
    outputCurrentLimit := s.g.outputCurrentLimit
    temperature := s.g.temperature
    supplyVoltage := s.g.supplyVoltage
    isCommandPending := s.g.isCommandPending
    remainingTime :=
      if s.g.isCommandPending then
        let elapsedTime := usub now s.g.commandSentTime
        let remaining := wrapLong (toLong PERMANENT_COMMAND_DELAY - toLong elapsedTime)
        if remaining > 0 then remaining / 1000 else 0
      else 0 }

/-! ## Reference notions of the specification for the handlers -/

/-- The argument domains of the table in section 6 of the specification, read on the value
the float denotes (a NaN lies in no domain). -/
def specInDomain : WriteRequest → Bool
  | .perm_v v => (floatVal v).gt 0
  | .online_v v => (floatVal v).gt 0
  | .perm_c v => (floatVal v).ge (1 / 10) && (floatVal v).le (121 / 100)
  | .online_c v => (floatVal v).ge (1 / 10) && (floatVal v).le (121 / 100)
  | .diesel_input_c v => (floatVal v).ge 3 && (floatVal v).le 13
  | .walk_in_time v => (floatVal v).ge 0
  | .fan_speed p => p = some "auto" || p = some "full"
  | .walk_in p => p = some "on" || p = some "off"

/-- The status formula of the specification:
`remainingTime = max(0, ceil((45000 - elapsed) / 1000))`. -/
def specRemainingTime (elapsed : Nat) : Int :=
  max 0 ⌈((45000 : ℚ) - (elapsed : ℚ)) / 1000⌉

/-- The receive step the specification describes: every waiting frame goes through the
parser, oldest first, and the queue is left empty. -/
def specDrain (s : Sys) : Sys :=
  { s with rx := [], g := s.rx.foldl (fun g f => parseFrame f g) s.g }

/-- The response frame `[0x41, 0xF0, 0x00, 0x02, 0x40, 0x80, 0x00, 0x00]` (output current
4.0 A). -/
def frameCurrent4 : RxFrame :=
  { rxId := 0x860F8003, len := 8, rxBuf := [0x41, 0xF0, 0x00, 0x02, 0x40, 0x80, 0x00, 0x00] }

/-- Two response frames waiting in the controller: output voltage 52.5, then output
current 4.0. -/
def twoFramesWaiting : Sys :=
  { Sys.init with rx := [frame525, frameCurrent4] }

/-- A window armed shortly before the millisecond counter wraps: pending since clock
value `2^32 - 1000`. -/
def pendingBeforeWrap : Sys :=
  { Sys.init with g := { Globals.init with isCommandPending := true, commandSentTime := 4294966296 } }

/-- A state in the middle of a poll cycle: no window pending, `readState = 1`, last
request at clock value 1000. -/
def awaitingCurrentBatch : Sys :=
  { Sys.init with g := { Globals.init with readState := 1, lastRequestTime := 1000 } }

/-! ## Helper lemmas -/

theorem toFloat_ofFloat (x : Nat) (hx : x < 2 ^ 32) :
    FloatBytes.toFloat (FloatBytes.ofFloat x) = x := by
  simp only [FloatBytes.toFloat, FloatBytes.ofFloat]
  omega

theorem run_tx (c : WriteCommand) (sndStat now : Nat) (s : Sys) :
    (c.run sndStat now s).tx = s.tx ++ [specWriteFrame c] := by
  cases c <;>
    simp only [WriteCommand.run, setVertivVoltagePermanent, setVertivVoltageOnline,
      setVertivCurrentPermanent, setVertivCurrentOnline, setVertivMaxInputCurrent,
      setVertivWalkInTime, setVertivFanSpeed, setVertivWalkIn, specWriteFrame, specOpcode,
      specArgBytes, specFloatBytes, FloatBytes.ofFloat, VERTIV_COMMAND_ID,
      SET_PERMANENT_VOLTAGE_CMD, SET_PERMANENT_CURRENT_LIMIT_CMD,
      SET_PERMANENT_MAX_INPUT_CURRENT_CMD] <;>
    split <;> simp

theorem usub_of_le (a b : Nat) (hba : b ≤ a) (ha : a < 2 ^ 32) : usub a b = a - b := by
  simp only [usub, ULONG_MOD]
  omega

theorem parseFrame_timers (f : RxFrame) (g : Globals) :
    (parseFrame f g).isCommandPending = g.isCommandPending ∧
      (parseFrame f g).commandSentTime = g.commandSentTime ∧
      (parseFrame f g).lastRequestTime = g.lastRequestTime ∧
      (parseFrame f g).readState = g.readState := by
  unfold parseFrame
  split
  · dsimp only
    split_ifs <;> simp
  · simp

theorem process_timers (s : Sys) :
    (processIncomingCanMessages s).g.isCommandPending = s.g.isCommandPending ∧
      (processIncomingCanMessages s).g.commandSentTime = s.g.commandSentTime ∧
      (processIncomingCanMessages s).g.lastRequestTime = s.g.lastRequestTime ∧
      (processIncomingCanMessages s).g.readState = s.g.readState ∧
      (processIncomingCanMessages s).tx = s.tx := by
  unfold processIncomingCanMessages
  split
  · simp
  · rename_i f rest _
    have h := parseFrame_timers f s.g
    simp [h.1, h.2.1, h.2.2.1, h.2.2.2]

theorem loopPoll_pending (e : TickEnv) (s : Sys) (hp : s.g.isCommandPending = true) :
    loopPoll e s = s := by
  simp [loopPoll, hp]

theorem loopPoll_window (e : TickEnv) (s : Sys) :
    (loopPoll e s).g.isCommandPending = s.g.isCommandPending ∧
      (loopPoll e s).g.commandSentTime = s.g.commandSentTime := by
  unfold loopPoll
  split_ifs <;> simp [readVertivSetting]

theorem loop_clears_iff (e : TickEnv) (s : Sys) (hp : s.g.isCommandPending = true) :
    (loop e s).g.isCommandPending = false ↔
      usub e.millisExpiry s.g.commandSentTime > PERMANENT_COMMAND_DELAY := by
  have h1 := process_timers s
  have h2 := loopPoll_window e (processIncomingCanMessages s)
  have hp2 : (loopPoll e (processIncomingCanMessages s)).g.isCommandPending = true := by
    rw [h2.1, h1.1, hp]
  have ht2 : (loopPoll e (processIncomingCanMessages s)).g.commandSentTime
      = s.g.commandSentTime := by
    rw [h2.2, h1.2.1]
  unfold loop loopExpiry
  rw [ht2]
  by_cases hx : usub e.millisExpiry s.g.commandSentTime > PERMANENT_COMMAND_DELAY
  · simp [hx, hp2]
  · simp [hx, hp2]

theorem polling_frozen_pending_aux (e : TickEnv) (s : Sys)
    (hp : s.g.isCommandPending = true) (hq : (loop e s).g.isCommandPending = true) :
    (loop e s).g.readState = s.g.readState := by
  have h1 := process_timers s
  have hp1 : (processIncomingCanMessages s).g.isCommandPending = true := by rw [h1.1, hp]
  have hpoll := loopPoll_pending e (processIncomingCanMessages s) hp1
  unfold loop at hq ⊢
  rw [hpoll] at hq ⊢
  unfold loopExpiry at hq ⊢
  split_ifs at hq ⊢
  exact h1.2.2.2.1

theorem run_settles (c : WriteCommand) (hc : c.settles = true) (now : Nat) (s : Sys) :
    (c.run CAN_OK now s).g.isCommandPending = true ∧
      (c.run CAN_OK now s).g.commandSentTime = now := by
  cases c <;> simp [WriteCommand.settles] at hc <;>
    simp [WriteCommand.run, setVertivVoltagePermanent, setVertivCurrentPermanent,
      setVertivMaxInputCurrent, setVertivWalkInTime, setVertivFanSpeed, setVertivWalkIn]

/-! ## Float codec and frame builder -/

/-- C1: for every bit pattern `x` of a finite float32 and every float-valued write
command, the command hands exactly one frame to the CAN controller, bytes 4..7 of that
frame are the native bytes `b[3], b[2], b[1], b[0]` of `x`, and `bytesToFloat` applied
to these four wire bytes gives back `x` bit for bit. -/
theorem float_codec_round_trip (k : FloatKind) (x sndStat now : Nat) (s : Sys)
    (hx : x < 2 ^ 32) (_hfin : isFiniteBits x = true) :
    ∃ fr : TxFrame, ((k.cmd x).run sndStat now s).tx = s.tx ++ [fr] ∧
      fr.data.drop 4 = [(FloatBytes.ofFloat x).b3, (FloatBytes.ofFloat x).b2,
        (FloatBytes.ofFloat x).b1, (FloatBytes.ofFloat x).b0] ∧
      bytesToFloat (fr.data.drop 4) = x := by
  refine ⟨specWriteFrame (k.cmd x), run_tx _ _ _ _, ?_, ?_⟩
  · cases k <;> simp [specWriteFrame, specArgBytes, specFloatBytes, FloatKind.cmd,
      FloatBytes.ofFloat]
  · have h := toFloat_ofFloat x hx
    simp only [FloatBytes.toFloat, FloatBytes.ofFloat] at h
    cases k <;> simp [specWriteFrame, specArgBytes, specFloatBytes, FloatKind.cmd,
      bytesToFloat, FloatBytes.toFloat] <;> omega

/-- Instance of C1: the permanent-voltage command at 52.5 V (`0x42520000`). -/
theorem float_codec_round_trip_witness :
    ∃ fr : TxFrame,
      ((FloatKind.voltagePermanent.cmd 0x42520000).run 0 0 Sys.init).tx = Sys.init.tx ++ [fr] ∧
      fr.data.drop 4 = [(FloatBytes.ofFloat 0x42520000).b3, (FloatBytes.ofFloat 0x42520000).b2,
        (FloatBytes.ofFloat 0x42520000).b1, (FloatBytes.ofFloat 0x42520000).b0] ∧
      bytesToFloat (fr.data.drop 4) = 0x42520000 :=
  float_codec_round_trip FloatKind.voltagePermanent 0x42520000 0 0 Sys.init
    (by norm_num) (by decide)

/-- C2: every write command, at every argument, send status, clock value and prior
state, hands exactly one frame to the CAN controller, and that frame is the reference
frame: identifier `0x06080783`, extended flag, length 8, and the 8 data bytes
`[0x03, 0xF0, 0x00, opcode, a0, a1, a2, a3]` with the opcode and argument bytes of the
specification. -/
theorem write_command_frame_shape (c : WriteCommand) (sndStat now : Nat) (s : Sys) :
    (c.run sndStat now s).tx = s.tx ++ [specWriteFrame c] ∧
      (specWriteFrame c).data.length = 8 ∧ (specWriteFrame c).len = 8 ∧
      (specWriteFrame c).ext = 1 ∧ (specWriteFrame c).id = VERTIV_COMMAND_ID ∧
      (specWriteFrame c).data.take 3 = [0x03, 0xF0, 0x00] := by
  refine ⟨run_tx c sndStat now s, ?_, rfl, rfl, rfl, ?_⟩ <;>
    cases c <;> simp [specWriteFrame, specArgBytes, specFloatBytes]

/-- C3: for every measurement code `c` (a byte) and every send status,
`readVertivSetting c` hands exactly one frame to the CAN controller, addressed to
READ_REQUEST_ID with data `[0x01, 0xF0, 0x00, c, 0, 0, 0, 0]`, and leaves the globals
(measurements, settling window, poll cycle) and the receive queue unchanged. -/
theorem read_request_frame (c sndStat : Nat) (s : Sys) (hc : c < 256) :
    (readVertivSetting c sndStat s).tx = s.tx ++ [specReadFrame c] ∧
      (specReadFrame c).id = VERTIV_READ_REQUEST_ID ∧
      (specReadFrame c).data.length = 8 ∧
      (readVertivSetting c sndStat s).g = s.g ∧
      (readVertivSetting c sndStat s).rx = s.rx := by
  have h : c % 256 = c := Nat.mod_eq_of_lt hc
  refine ⟨?_, rfl, rfl, ?_, ?_⟩ <;>
    simp [readVertivSetting, specReadFrame, VERTIV_READ_REQUEST_ID, h]

/-- Instance of C3: the read request for the supply voltage (code `0x05`) when the
controller rejects the frame (status 7). -/
theorem read_request_frame_witness :
    (readVertivSetting 5 7 Sys.init).tx = Sys.init.tx ++ [specReadFrame 5] ∧
      (specReadFrame 5).id = VERTIV_READ_REQUEST_ID ∧
      (specReadFrame 5).data.length = 8 ∧
      (readVertivSetting 5 7 Sys.init).g = Sys.init.g ∧
      (readVertivSetting 5 7 Sys.init).rx = Sys.init.rx :=
  read_request_frame 5 7 Sys.init (by decide)

/-! ## Frame parser -/

/-- C4: when the frame at the head of the receive queue has identifier RESPONSE_ID,
length 8 and bytes 0..2 equal to `[0x41, 0xF0, 0x00]`, `processIncomingCanMessages`
consumes it, sends nothing, and, for each of the five measurement codes in byte 3,
stores the float decoded big-endian from bytes 4..7 in the corresponding measurement
while every other global (the other four measurements, `isCommandPending`,
`commandSentTime`, `readState`, `lastRequestTime`) keeps its value. -/
theorem parser_updates_measurement (f : RxFrame) (rest : List RxFrame) (s : Sys)
    (hrx : s.rx = f :: rest)
    (hid : f.rxId = VERTIV_RESPONSE_ID) (hlen : f.len = 8)
    (h0 : f.rxBuf.getD 0 0 = 0x41) (h1 : f.rxBuf.getD 1 0 = 0xF0)
    (h2 : f.rxBuf.getD 2 0 = 0x00) :
    let v := f.rxBuf.getD 4 0 * 2 ^ 24 + f.rxBuf.getD 5 0 * 2 ^ 16
      + f.rxBuf.getD 6 0 * 2 ^ 8 + f.rxBuf.getD 7 0
    let s1 := processIncomingCanMessages s
    s1.rx = rest ∧ s1.tx = s.tx ∧
    (f.rxBuf.getD 3 0 = 0x01 → s1.g = { s.g with outputVoltage := v }) ∧
    (f.rxBuf.getD 3 0 = 0x02 → s1.g = { s.g with outputCurrent := v }) ∧
    (f.rxBuf.getD 3 0 = 0x03 → s1.g = { s.g with outputCurrentLimit := v }) ∧
    (f.rxBuf.getD 3 0 = 0x04 → s1.g = { s.g with temperature := v }) ∧
    (f.rxBuf.getD 3 0 = 0x05 → s1.g = { s.g with supplyVoltage := v }) := by
  have hv : bytesToFloat [f.rxBuf.getD 4 0, f.rxBuf.getD 5 0, f.rxBuf.getD 6 0,
      f.rxBuf.getD 7 0] = f.rxBuf.getD 4 0 * 2 ^ 24 + f.rxBuf.getD 5 0 * 2 ^ 16
      + f.rxBuf.getD 6 0 * 2 ^ 8 + f.rxBuf.getD 7 0 := by
    simp [bytesToFloat, FloatBytes.toFloat]
    omega
  have hacc : f.rxId = VERTIV_RESPONSE_ID ∧ f.len = 8 ∧ f.rxBuf.getD 0 0 = 0x41
      ∧ f.rxBuf.getD 1 0 = 0xF0 ∧ f.rxBuf.getD 2 0 = 0x00 := ⟨hid, hlen, h0, h1, h2⟩
  refine ⟨?_, ?_, ?_, ?_, ?_, ?_, ?_⟩
  · simp [processIncomingCanMessages, hrx]
  · simp [processIncomingCanMessages, hrx]
  all_goals
    intro h3
    simp only [processIncomingCanMessages, hrx, parseFrame, if_pos hacc, h3, hv,
      OUTPUT_VOLTAGE, OUTPUT_CURRENT, OUTPUT_CURRENT_LIMIT, TEMPERATURE, SUPPLY_VOLTAGE]
    simp

/-- Instance of C4: the frame `[0x41,0xF0,0x00,0x01,0x42,0x52,0x00,0x00]` received in the
initial state sets `outputVoltage` to the bit pattern `0x42520000`, whose float32 value
is 52.5, and changes no other global. -/
theorem parser_updates_measurement_witness :
    (processIncomingCanMessages { Sys.init with rx := [frame525] }).g
        = { Globals.init with outputVoltage := 0x42520000 } ∧
      float32Value 0x42520000 = some (105 / 2) := by
  refine ⟨?_, ?_⟩
  · have h := (parser_updates_measurement frame525 [] { Sys.init with rx := [frame525] }
      rfl rfl rfl rfl rfl rfl).2.2.1 rfl
    simpa [frame525, Sys.init] using h
  · simp only [float32Value]
    norm_num

/-- C5: when the frame at the head of the receive queue fails acceptance (identifier
different from RESPONSE_ID, or length different from 8, or one of bytes 0..2 different
from `[0x41, 0xF0, 0x00]`), or is accepted with byte 3 different from each of the five
measurement codes `0x01..0x05`, `processIncomingCanMessages` consumes the frame, returns
normally, sends nothing and leaves every global unchanged. -/
theorem parser_rejects_frame (f : RxFrame) (rest : List RxFrame) (s : Sys)
    (hrx : s.rx = f :: rest)
    (hrej : f.rxId ≠ VERTIV_RESPONSE_ID ∨ f.len ≠ 8 ∨ f.rxBuf.getD 0 0 ≠ 0x41
      ∨ f.rxBuf.getD 1 0 ≠ 0xF0 ∨ f.rxBuf.getD 2 0 ≠ 0x00
      ∨ (f.rxBuf.getD 3 0 ≠ 0x01 ∧ f.rxBuf.getD 3 0 ≠ 0x02 ∧ f.rxBuf.getD 3 0 ≠ 0x03
          ∧ f.rxBuf.getD 3 0 ≠ 0x04 ∧ f.rxBuf.getD 3 0 ≠ 0x05)) :
    processIncomingCanMessages s = { s with rx := rest } := by
  have hg : parseFrame f s.g = s.g := by
    unfold parseFrame
    split
    · rename_i hacc
      rcases hrej with h | h | h | h | h | ⟨h1, h2, h3, h4, h5⟩
      · exact absurd hacc.1 h
      · exact absurd hacc.2.1 h
      · exact absurd hacc.2.2.1 h
      · exact absurd hacc.2.2.2.1 h
      · exact absurd hacc.2.2.2.2 h
      · simp only [OUTPUT_VOLTAGE, OUTPUT_CURRENT, OUTPUT_CURRENT_LIMIT, TEMPERATURE,
          SUPPLY_VOLTAGE, if_neg h1, if_neg h2, if_neg h3, if_neg h4, if_neg h5]
    · rfl
  simp [processIncomingCanMessages, hrx, hg]

/-- Instance of C5: a response frame with measurement code `0xFF` leaves the state as it
was, apart from the frame being consumed. -/
theorem parser_rejects_frame_witness :
    processIncomingCanMessages { Sys.init with rx := [frameFF] }
      = { { Sys.init with rx := [frameFF] } with rx := [] } :=
  parser_rejects_frame frameFF [] { Sys.init with rx := [frameFF] } rfl
    (by simp [frameFF])

/-! ## Settling window -/

/-- C6: every settling command whose frame the controller accepts at clock value `t1`
leaves `isCommandPending` true and `commandSentTime = t1`, whatever the state before;
a second settling command accepted at `t2` while that window is pending leaves
`commandSentTime = t2`, so with `t2 = t1 + 1000` the deadline
`commandSentTime + 45000` moves from `t1 + 45000` to `t1 + 1000 + 45000`, and no tick
whose clock lies between `t2` and `t2 + 45000` clears the window. -/
theorem settling_command_arms_window (c1 c2 : WriteCommand) (t1 t2 : Nat) (s : Sys)
    (h1 : c1.settles = true) (h2 : c2.settles = true) :
    let s1 := c1.run CAN_OK t1 s
    let s2 := c2.run CAN_OK t2 s1
    s1.g.isCommandPending = true ∧ s1.g.commandSentTime = t1 ∧
    s1.g.commandSentTime + PERMANENT_COMMAND_DELAY = t1 + 45000 ∧
    s2.g.isCommandPending = true ∧ s2.g.commandSentTime = t2 ∧
    (t2 = t1 + 1000 → s2.g.commandSentTime + PERMANENT_COMMAND_DELAY = t1 + 1000 + 45000) ∧
    (∀ e : TickEnv, t2 ≤ e.millisExpiry → e.millisExpiry ≤ t2 + 45000 →
      e.millisExpiry < 2 ^ 32 → (loop e s2).g.isCommandPending = true) := by
  intro s1 s2
  have a := run_settles c1 h1 t1 s
  have b := run_settles c2 h2 t2 s1
  refine ⟨a.1, a.2, ?_, b.1, b.2, ?_, ?_⟩
  · show s1.g.commandSentTime + PERMANENT_COMMAND_DELAY = t1 + 45000
    rw [a.2]
    rfl
  · intro h
    show s2.g.commandSentTime + PERMANENT_COMMAND_DELAY = t1 + 1000 + 45000
    rw [b.2, h]
    rfl
  · intro e hlo hhi hlt
    have hiff := loop_clears_iff e s2 b.1
    have hsub : usub e.millisExpiry s2.g.commandSentTime = e.millisExpiry - t2 := by
      rw [b.2]
      exact usub_of_le _ _ hlo hlt
    cases hq : (loop e s2).g.isCommandPending with
    | true => rfl
    | false =>
      have hgt := hiff.mp hq
      rw [hsub] at hgt
      simp only [PERMANENT_COMMAND_DELAY] at hgt
      omega

/-- Instance of C6: permanent voltage 52.5 V accepted at `t = 7000`, fan speed "full"
accepted at `t + 1000 = 8000`. -/
theorem settling_command_arms_window_witness :
    let s1 := (WriteCommand.voltagePermanent 0x42520000).run CAN_OK 7000 Sys.init
    let s2 := (WriteCommand.fanSpeed true).run CAN_OK 8000 s1
    s1.g.isCommandPending = true ∧ s1.g.commandSentTime = 7000 ∧
    s1.g.commandSentTime + PERMANENT_COMMAND_DELAY = 7000 + 45000 ∧
    s2.g.isCommandPending = true ∧ s2.g.commandSentTime = 8000 ∧
    (8000 = 7000 + 1000 → s2.g.commandSentTime + PERMANENT_COMMAND_DELAY = 7000 + 1000 + 45000) ∧
    (∀ e : TickEnv, 8000 ≤ e.millisExpiry → e.millisExpiry ≤ 8000 + 45000 →
      e.millisExpiry < 2 ^ 32 → (loop e s2).g.isCommandPending = true) :=
  settling_command_arms_window (WriteCommand.voltagePermanent 0x42520000)
    (WriteCommand.fanSpeed true) 7000 8000 Sys.init rfl rfl

/-- C7, as stated, fails: with the window pending since clock value 0, a tick at clock
value 45000 has `now - sentAt = 45000 >= 45000` and leaves `isCommandPending` true. -/
theorem expiry_at_exact_delay_counterexample :
    pendingSinceZero.g.isCommandPending = true ∧
      usub (TickEnv.instant 45000 0 0).millisExpiry pendingSinceZero.g.commandSentTime ≥ 45000 ∧
      (loop (TickEnv.instant 45000 0 0) pendingSinceZero).g.isCommandPending = true := by
  decide

/-- C7, amended: in a tick that starts with `isCommandPending` true, the tick clears the
flag exactly when the unsigned difference `millis() - commandSentTime` read by the expiry
check is strictly greater than 45000; at a difference of exactly 45000 the flag stays. -/
theorem expiry_clears_strictly_after_delay (e : TickEnv) (s : Sys)
    (hp : s.g.isCommandPending = true) :
    ((loop e s).g.isCommandPending = false ↔
        usub e.millisExpiry s.g.commandSentTime > 45000) ∧
      (usub e.millisExpiry s.g.commandSentTime = 45000 →
        (loop e s).g.isCommandPending = true) := by
  have hiff := loop_clears_iff e s hp
  refine ⟨hiff, ?_⟩
  intro h45
  cases hq : (loop e s).g.isCommandPending with
  | true => rfl
  | false =>
    have hgt := hiff.mp hq
    rw [h45] at hgt
    simp [PERMANENT_COMMAND_DELAY] at hgt

/-- Instance of the amended C7: window pending since clock value 0; the tick at clock
value 45001 clears it. -/
theorem expiry_clears_strictly_after_delay_witness :
    pendingSinceZero.g.isCommandPending = true ∧
      (loop (TickEnv.instant 45001 0 0) pendingSinceZero).g.isCommandPending = false :=
  ⟨rfl, (expiry_clears_strictly_after_delay (TickEnv.instant 45001 0 0) pendingSinceZero
    rfl).1.mpr (by decide)⟩

/-! ## Polling sequencer -/

/-- C8: in a tick that starts with `isCommandPending` true, whatever `readState`,
`lastRequestTime` and the clock are, the polling sequencer is the identity (on the state
the tick starts with and on the state it actually runs on, after the receive step); the
whole tick sends no frame and leaves `lastRequestTime` unchanged, and `readState`
changes only if the expiry check of that tick clears the window. -/
theorem polling_frozen_while_pending (e : TickEnv) (s : Sys)
    (hp : s.g.isCommandPending = true) :
    loopPoll e s = s ∧
      loopPoll e (processIncomingCanMessages s) = processIncomingCanMessages s ∧
      (loop e s).tx = s.tx ∧
      (loop e s).g.lastRequestTime = s.g.lastRequestTime ∧
      ((loop e s).g.readState = s.g.readState ∨
        ((loop e s).g.isCommandPending = false ∧ (loop e s).g.readState = 0)) := by
  have h1 := process_timers s
  have hp1 : (processIncomingCanMessages s).g.isCommandPending = true := by rw [h1.1, hp]
  have hpoll := loopPoll_pending e (processIncomingCanMessages s) hp1
  refine ⟨loopPoll_pending e s hp, hpoll, ?_, ?_, ?_⟩
  · unfold loop
    rw [hpoll]
    unfold loopExpiry
    split_ifs <;> simp [h1.2.2.2.2]
  · unfold loop
    rw [hpoll]
    unfold loopExpiry
    split_ifs <;> simp [h1.2.2.1]
  · unfold loop
    rw [hpoll]
    unfold loopExpiry
    split_ifs
    · right
      simp
    · left
      exact h1.2.2.2.1

/-- Instance of C8: frozen in `readState = 1`, tick at clock value 20000 (far beyond the
100 ms delay of that state). -/
theorem polling_frozen_while_pending_witness :
    loopPoll (TickEnv.instant 20000 0 0) frozenMidCycle = frozenMidCycle ∧
      loopPoll (TickEnv.instant 20000 0 0) (processIncomingCanMessages frozenMidCycle)
        = processIncomingCanMessages frozenMidCycle ∧
      (loop (TickEnv.instant 20000 0 0) frozenMidCycle).tx = frozenMidCycle.tx ∧
      (loop (TickEnv.instant 20000 0 0) frozenMidCycle).g.lastRequestTime
        = frozenMidCycle.g.lastRequestTime ∧
      ((loop (TickEnv.instant 20000 0 0) frozenMidCycle).g.readState
          = frozenMidCycle.g.readState ∨
        ((loop (TickEnv.instant 20000 0 0) frozenMidCycle).g.isCommandPending = false ∧
          (loop (TickEnv.instant 20000 0 0) frozenMidCycle).g.readState = 0)) :=
  polling_frozen_while_pending (TickEnv.instant 20000 0 0) frozenMidCycle rfl

/-- C9: a tick that clears the settling window (pending before, not pending after) ends
with `readState = 0`, whatever `readState` was; and a tick that does not clear the window
ends with `readState = 0` from a different `readState` only through the transition out of
state 2: the window was not pending, `readState` was 2 and its delay of 1000 ms had
passed. -/
theorem polling_resumes_from_idle (e : TickEnv) (s : Sys) :
    (s.g.isCommandPending = true → (loop e s).g.isCommandPending = false →
        (loop e s).g.readState = 0) ∧
      (¬ (s.g.isCommandPending = true ∧ (loop e s).g.isCommandPending = false) →
        (loop e s).g.readState = 0 → s.g.readState ≠ 0 →
        s.g.isCommandPending = false ∧ s.g.readState = 2 ∧
          usub e.millisPoll s.g.lastRequestTime > CURRENT_LIMIT_DELAY) := by
  have h1 := process_timers s
  constructor
  · intro hp hq
    have hgt := (loop_clears_iff e s hp).mp hq
    have hp1 : (processIncomingCanMessages s).g.isCommandPending = true := by rw [h1.1, hp]
    have hpoll := loopPoll_pending e (processIncomingCanMessages s) hp1
    unfold loop
    rw [hpoll]
    unfold loopExpiry
    rw [h1.2.1, if_pos ⟨hp1, hgt⟩]
  · intro hnc h0 hne
    cases hp : s.g.isCommandPending with
    | true =>
      exfalso
      have hq : (loop e s).g.isCommandPending = true := by
        cases hq : (loop e s).g.isCommandPending with
        | true => rfl
        | false => exact absurd ⟨hp, hq⟩ hnc
      have h8 := polling_frozen_pending_aux e s hp hq
      rw [h8] at h0
      exact hne h0
    | false =>
      have hp1 : (processIncomingCanMessages s).g.isCommandPending = false := by
        rw [h1.1, hp]
      have hw := loopPoll_window e (processIncomingCanMessages s)
      have hexp : loop e s = loopPoll e (processIncomingCanMessages s) := by
        unfold loop loopExpiry
        rw [if_neg]
        rw [hw.1, hp1]
        simp
      rw [hexp] at h0
      unfold loopPoll at h0
      rw [h1.2.2.2.1, h1.2.2.1] at h0
      simp only [hp1] at h0
      split_ifs at h0 <;> simp_all [readVertivSetting]

/-- Instance of C9: frozen in `readState = 1` with the window pending since clock value
0, the tick at clock value 45001 clears the window and ends in `readState = 0`. -/
theorem polling_resumes_from_idle_witness :
    frozenMidCycle.g.readState = 1 ∧
      (loop (TickEnv.instant 45001 0 0) frozenMidCycle).g.isCommandPending = false ∧
      (loop (TickEnv.instant 45001 0 0) frozenMidCycle).g.readState = 0 :=
  ⟨rfl, by decide,
    (polling_resumes_from_idle (TickEnv.instant 45001 0 0) frozenMidCycle).1 rfl (by decide)⟩

/-- C10: in every tick that starts with `isCommandPending` false, with `readState`
standing for the poll state `ps`, whatever the `millis()` reads and the send statuses of
the tick are, the polling sequencer does what the transition table of the specification
says, taken at `now` = the clock value read by the delay test: it sends the read requests
of the table in the table's order and `readState` becomes the table's next state; when
the table fires, `lastRequestTime` becomes the clock value `millis()` returns at the
assignment `lastRequestTime = millis()` (read after the requests are sent), otherwise it
keeps its value. When that second read returns the same value as the first, this is the
table's `lastAdvance = now` literally. Nothing else changes, the expiry check of such a
tick changes nothing, and when `lastRequestTime <= now < 2^32` the 32-bit difference used
by the table is the plain difference `now - lastRequestTime`. -/
theorem polling_transition_table (ps : PollState) (e : TickEnv) (s : Sys)
    (hp : s.g.isCommandPending = false) (hs : s.g.readState = ps.code) :
    let r := specSequencer { state := ps, lastAdvance := s.g.lastRequestTime } e.millisPoll
    loopPoll e s = { s with
        tx := s.tx ++ r.1.map specReadFrame
        g := { s.g with
          readState := r.2.state.code
          lastRequestTime := if r.1 = [] then s.g.lastRequestTime else e.millisStamp } } ∧
      (e.millisStamp = e.millisPoll →
        loopPoll e s = { s with
          tx := s.tx ++ r.1.map specReadFrame
          g := { s.g with readState := r.2.state.code, lastRequestTime := r.2.lastAdvance } }) ∧
      loop e s = loopPoll e (processIncomingCanMessages s) ∧
      (s.g.lastRequestTime ≤ e.millisPoll → e.millisPoll < 2 ^ 32 →
        usub e.millisPoll s.g.lastRequestTime = e.millisPoll - s.g.lastRequestTime) := by
  intro r
  have hmain : loopPoll e s = { s with
      tx := s.tx ++ r.1.map specReadFrame
      g := { s.g with
        readState := r.2.state.code
        lastRequestTime := if r.1 = [] then s.g.lastRequestTime else e.millisStamp } } := by
    cases s with
    | mk g rx tx =>
      cases g with
      | mk ov oc ocl te sv pend sent last rs =>
        simp only at hp hs
        subst hp
        subst hs
        cases ps <;>
          simp only [r, loopPoll, specSequencer, PollState.code,
            readVertivSetting, specReadFrame, POLLING_INTERVAL, CURRENT_LIMIT_DELAY,
            OUTPUT_VOLTAGE, OUTPUT_CURRENT, OUTPUT_CURRENT_LIMIT, TEMPERATURE,
            SUPPLY_VOLTAGE, VERTIV_READ_REQUEST_ID] <;>
          split_ifs <;> simp_all [specReadFrame]
  refine ⟨hmain, ?_, ?_, fun h1 h2 => usub_of_le _ _ h1 h2⟩
  · intro hsame
    rw [hmain]
    have hlast : (if r.1 = [] then s.g.lastRequestTime else e.millisStamp)
        = r.2.lastAdvance := by
      cases ps <;> simp only [r, specSequencer] <;> split_ifs <;> simp_all
    rw [hlast]
  · have h1 := process_timers s
    have hw := loopPoll_window e (processIncomingCanMessages s)
    unfold loop loopExpiry
    rw [if_neg]
    rw [hw.1, h1.1, hp]
    simp

/-- Instance of C10 with two different clock reads: in `readState = 1` with the last
request at clock value 1000, the delay test reads 1101 (101 ms elapsed), the two requests
for output current and current limit are sent, and the assignment reads 1105: the tick
ends in `readState = 2` with `lastRequestTime = 1105`. -/
theorem polling_transition_table_witness :
    awaitingCurrentBatch.g.isCommandPending = false ∧
      awaitingCurrentBatch.g.readState = PollState.AwaitingCurrentBatch.code ∧
      loopPoll { millisPoll := 1101, millisStamp := 1105, millisExpiry := 1106,
                 sndStat1 := 0, sndStat2 := 0 } awaitingCurrentBatch =
        { awaitingCurrentBatch with
          tx := [specReadFrame 0x02, specReadFrame 0x03]
          g := { awaitingCurrentBatch.g with readState := 2, lastRequestTime := 1105 } } :=
  ⟨rfl, rfl,
    (polling_transition_table PollState.AwaitingCurrentBatch
      { millisPoll := 1101, millisStamp := 1105, millisExpiry := 1106,
        sndStat1 := 0, sndStat2 := 0 } awaitingCurrentBatch rfl rfl).1.trans (by decide)⟩

/-! ## Further helper lemmas -/

theorem usub_wrap (a d : Nat) (ha : a < 2 ^ 32) (hd : d < 2 ^ 32) :
    usub ((a + d) % 2 ^ 32) a = d := by
  simp only [usub, ULONG_MOD]
  omega

theorem run_failed (c : WriteCommand) (sndStat now : Nat) (s : Sys) (hfail : sndStat ≠ CAN_OK) :
    (c.run sndStat now s).g = s.g ∧ (c.run sndStat now s).rx = s.rx := by
  cases c <;>
    simp [WriteCommand.run, setVertivVoltagePermanent, setVertivVoltageOnline,
      setVertivCurrentPermanent, setVertivCurrentOnline, setVertivMaxInputCurrent,
      setVertivWalkInTime, setVertivFanSpeed, setVertivWalkIn, hfail]

theorem loopPoll_rx (e : TickEnv) (s : Sys) : (loopPoll e s).rx = s.rx := by
  unfold loopPoll
  split_ifs <;> simp [readVertivSetting]

theorem loopExpiry_rx (e : TickEnv) (s : Sys) : (loopExpiry e s).rx = s.rx := by
  unfold loopExpiry
  split_ifs <;> simp

theorem process_head (s : Sys) :
    processIncomingCanMessages s =
      { s with rx := s.rx.drop 1, g := (s.rx.take 1).foldl (fun g f => parseFrame f g) s.g } := by
  cases s with
  | mk g rx tx =>
    cases rx with
    | nil => simp [processIncomingCanMessages]
    | cons f rest => simp [processIncomingCanMessages]

/-! ## Transmission failures and online commands -/

/-- C12: `setVertivVoltageOnline` and `setVertivCurrentOnline`, and the handlers that call
them, leave every global, in particular `isCommandPending` and `commandSentTime`, as it
was, for every argument, send status and prior state; so from a state with
`isCommandPending` false an online voltage command followed by a status query reports
`isCommandPending` false and `remainingTime` 0. -/
theorem online_commands_keep_window (str : Nat → String) (v sndStat now : Nat) (s : Sys) :
    (setVertivVoltageOnline v sndStat s).g = s.g ∧
      (setVertivCurrentOnline v sndStat s).g = s.g ∧
      (set_online_v str v sndStat s).1.g = s.g ∧
      (set_online_c str v sndStat s).1.g = s.g ∧
      (s.g.isCommandPending = false →
        (getData now (setVertivVoltageOnline v sndStat s)).isCommandPending = false ∧
        (getData now (setVertivVoltageOnline v sndStat s)).remainingTime = 0 ∧
        (getData now (set_online_v str v sndStat s).1).isCommandPending = false ∧
        (getData now (set_online_v str v sndStat s).1).remainingTime = 0) := by
  have h1 : (setVertivVoltageOnline v sndStat s).g = s.g := by simp [setVertivVoltageOnline]
  have h2 : (setVertivCurrentOnline v sndStat s).g = s.g := by simp [setVertivCurrentOnline]
  have h3 : (set_online_v str v sndStat s).1.g = s.g := by
    unfold set_online_v
    split_ifs <;> simp [h1]
  have h4 : (set_online_c str v sndStat s).1.g = s.g := by
    unfold set_online_c
    split_ifs <;> simp [h2]
  refine ⟨h1, h2, h3, h4, ?_⟩
  intro hp
  simp [getData, h1, h3, hp]

/-- Instance of C12: from the initial state, online voltage 52.5 V (send accepted), status
query at clock value 1. -/
theorem online_commands_keep_window_witness :
    Sys.init.g.isCommandPending = false ∧
      (getData 1 (setVertivVoltageOnline 0x42520000 CAN_OK Sys.init)).isCommandPending = false ∧
      (getData 1 (setVertivVoltageOnline 0x42520000 CAN_OK Sys.init)).remainingTime = 0 :=
  ⟨rfl,
    ((online_commands_keep_window (fun _ => "") 0x42520000 CAN_OK 1 Sys.init).2.2.2.2 rfl).1,
    ((online_commands_keep_window (fun _ => "") 0x42520000 CAN_OK 1 Sys.init).2.2.2.2 rfl).2.1⟩

/-- C13: a write command whose frame the controller rejects (status other than `CAN_OK`)
leaves every global as it was: `isCommandPending` and `commandSentTime` keep their values,
so from a state with no window pending the window stays unpending; the same holds for the
handler of every write request. -/
theorem failed_send_keeps_window (str : Nat → String) (c : WriteCommand) (r : WriteRequest)
    (sndStat now : Nat) (s : Sys) (hfail : sndStat ≠ CAN_OK) :
    (c.run sndStat now s).g.isCommandPending = s.g.isCommandPending ∧
      (c.run sndStat now s).g.commandSentTime = s.g.commandSentTime ∧
      (c.run sndStat now s).g = s.g ∧
      (r.handle str sndStat now s).1.g = s.g ∧
      (s.g.isCommandPending = false → (c.run sndStat now s).g.isCommandPending = false) := by
  have h := (run_failed c sndStat now s hfail).1
  refine ⟨by rw [h], by rw [h], h, ?_, fun hp => by rw [h, hp]⟩
  cases r with
  | perm_v v =>
    have h := (run_failed (.voltagePermanent v) sndStat now s hfail).1
    simp only [WriteCommand.run] at h
    simp only [WriteRequest.handle, set_perm_v]
    split_ifs <;> simp [h]
  | online_v v =>
    have h := (run_failed (.voltageOnline v) sndStat now s hfail).1
    simp only [WriteCommand.run] at h
    simp only [WriteRequest.handle, set_online_v]
    split_ifs <;> simp [h]
  | perm_c v =>
    have h := (run_failed (.currentPermanent v) sndStat now s hfail).1
    simp only [WriteCommand.run] at h
    simp only [WriteRequest.handle, set_perm_c]
    split_ifs <;> simp [h]
  | online_c v =>
    have h := (run_failed (.currentOnline v) sndStat now s hfail).1
    simp only [WriteCommand.run] at h
    simp only [WriteRequest.handle, set_online_c]
    split_ifs <;> simp [h]
  | diesel_input_c v =>
    have h := (run_failed (.maxInputCurrent v) sndStat now s hfail).1
    simp only [WriteCommand.run] at h
    simp only [WriteRequest.handle, set_diesel_input_c]
    split_ifs <;> simp [h]
  | walk_in_time v =>
    have h := (run_failed (.walkInTime v) sndStat now s hfail).1
    simp only [WriteCommand.run] at h
    simp only [WriteRequest.handle, set_walk_in_time]
    split_ifs <;> simp [h]
  | fan_speed p =>
    have ht := (run_failed (.fanSpeed true) sndStat now s hfail).1
    have hf := (run_failed (.fanSpeed false) sndStat now s hfail).1
    simp only [WriteCommand.run] at ht hf
    cases p with
    | none => simp [WriteRequest.handle, set_fan_speed]
    | some sp =>
      simp only [WriteRequest.handle, set_fan_speed]
      split_ifs <;> simp [ht, hf]
  | walk_in p =>
    have ht := (run_failed (.walkIn true) sndStat now s hfail).1
    have hf := (run_failed (.walkIn false) sndStat now s hfail).1
    simp only [WriteCommand.run] at ht hf
    cases p with
    | none => simp [WriteRequest.handle, set_walk_in]
    | some sp =>
      simp only [WriteRequest.handle, set_walk_in]
      split_ifs <;> simp [ht, hf]

/-- Instance of C13: permanent voltage 52.5 V rejected by the controller (status 7) in the
initial state: the window stays unpending. -/
theorem failed_send_keeps_window_witness :
    Sys.init.g.isCommandPending = false ∧
      ((WriteCommand.voltagePermanent 0x42520000).run 7 9000 Sys.init).g.isCommandPending
        = false :=
  ⟨rfl, (failed_send_keeps_window (fun _ => "") (WriteCommand.voltagePermanent 0x42520000)
    (WriteRequest.perm_v 0x42520000) 7 9000 Sys.init (by decide)).2.2.2.2 rfl⟩

/-! ## Float32 values lie on a binary grid -/

theorem float32Value_pos_form (bits : Nat) (q : ℚ) (h : float32Value bits = some q)
    (hq : 0 < q) : ∃ M E : ℕ, M < 2 ^ 24 ∧ q = (M : ℚ) * (2 : ℚ) ^ ((E : ℤ) - 150) := by
  have hm : bits % 8388608 < 8388608 := Nat.mod_lt _ (by norm_num)
  simp only [float32Value] at h
  split_ifs at h with he255 he0 hs hs
  · exfalso
    have hq2 := Option.some.inj h
    have hle : q ≤ 0 := by
      rw [← hq2]
      have hnn : (0 : ℚ) ≤ ((bits % 8388608 : ℕ) : ℚ) / 2 ^ 149 := by positivity
      push_cast at hnn ⊢
      linarith
    linarith
  · refine ⟨bits % 8388608, 1, by omega, ?_⟩
    have hq2 := Option.some.inj h
    rw [← hq2]
    have hexp : ((1 : ℕ) : ℤ) - 150 = -((149 : ℕ) : ℤ) := by norm_num
    rw [hexp, zpow_neg, zpow_natCast]
    ring
  · exfalso
    have hq2 := Option.some.inj h
    have hle : q ≤ 0 := by
      rw [← hq2]
      have hnn : (0 : ℚ) ≤ ((8388608 + bits % 8388608 : ℕ) : ℚ)
          * (2 : ℚ) ^ (((bits / 8388608 % 256 : ℕ) : ℤ) - 150) := by positivity
      push_cast at hnn ⊢
      linarith
    linarith
  · refine ⟨8388608 + bits % 8388608, bits / 8388608 % 256, by omega, ?_⟩
    have hq2 := Option.some.inj h
    rw [← hq2]
    ring

theorem on_grid (M E K : ℕ) (hM : M < 2 ^ 24) (q : ℚ)
    (hq : q = (M : ℚ) * (2 : ℚ) ^ ((E : ℤ) - 150))
    (hlow : (2 : ℚ) ^ ((23 : ℤ) - (K : ℤ)) ≤ q) : ∃ n : ℕ, q = (n : ℚ) / 2 ^ K := by
  have h2ne : (2 : ℚ) ≠ 0 := by norm_num
  have hEK : 150 ≤ E + K := by
    by_contra hlt
    push_neg at hlt
    have hexp : (E : ℤ) - 150 ≤ -(K : ℤ) - 1 := by omega
    have h2 : (2 : ℚ) ^ ((E : ℤ) - 150) ≤ (2 : ℚ) ^ (-(K : ℤ) - 1) :=
      zpow_le_zpow_right₀ (by norm_num) hexp
    have hpos : (0 : ℚ) < (2 : ℚ) ^ (-(K : ℤ) - 1) := by positivity
    have hMq : (M : ℚ) < 2 ^ 24 := by exact_mod_cast hM
    have h3 : q < 2 ^ 24 * (2 : ℚ) ^ (-(K : ℤ) - 1) := by
      rw [hq]
      calc (M : ℚ) * (2 : ℚ) ^ ((E : ℤ) - 150)
          ≤ (M : ℚ) * (2 : ℚ) ^ (-(K : ℤ) - 1) := by
            apply mul_le_mul_of_nonneg_left h2
            positivity
        _ < 2 ^ 24 * (2 : ℚ) ^ (-(K : ℤ) - 1) := by
            apply mul_lt_mul_of_pos_right hMq hpos
    have he4 : (23 : ℤ) - (K : ℤ) = ((24 : ℕ) : ℤ) + (-(K : ℤ) - 1) := by omega
    have h4 : (2 : ℚ) ^ 24 * (2 : ℚ) ^ (-(K : ℤ) - 1) = (2 : ℚ) ^ ((23 : ℤ) - (K : ℤ)) := by
      rw [he4, zpow_add₀ h2ne, zpow_natCast]
    rw [h4] at h3
    exact absurd hlow (not_le.mpr h3)
  refine ⟨M * 2 ^ (E + K - 150), ?_⟩
  rw [hq]
  have he5 : (E : ℤ) - 150 = ((E + K - 150 : ℕ) : ℤ) - ((K : ℕ) : ℤ) := by omega
  have h5 : (2 : ℚ) ^ ((E : ℤ) - 150) = (2 : ℚ) ^ (E + K - 150 : ℕ) / 2 ^ K := by
    rw [he5, zpow_sub₀ h2ne, zpow_natCast, zpow_natCast]
  rw [h5]
  push_cast
  ring

/-- A float32 of value at least 1/16 is a multiple of `2^-27`. -/
theorem float32_grid27 (bits : Nat) (q : ℚ) (h : float32Value bits = some q)
    (hq : 1 / 16 ≤ q) : ∃ n : ℕ, q = (n : ℚ) / 2 ^ 27 := by
  obtain ⟨M, E, hM, hform⟩ := float32Value_pos_form bits q h (by linarith)
  refine on_grid M E 27 hM q hform ?_
  have h16 : (2 : ℚ) ^ ((23 : ℤ) - ((27 : ℕ) : ℤ)) = 1 / 16 := by
    have hexp : (23 : ℤ) - ((27 : ℕ) : ℤ) = -((4 : ℕ) : ℤ) := by norm_num
    rw [hexp, zpow_neg, zpow_natCast]
    norm_num
  rw [h16]
  exact hq

/-- A float32 of value at least 1 is a multiple of `2^-23`. -/
theorem float32_grid23 (bits : Nat) (q : ℚ) (h : float32Value bits = some q)
    (hq : 1 ≤ q) : ∃ n : ℕ, q = (n : ℚ) / 2 ^ 23 := by
  obtain ⟨M, E, hM, hform⟩ := float32Value_pos_form bits q h (by linarith)
  refine on_grid M E 23 hM q hform ?_
  have h1 : (2 : ℚ) ^ ((23 : ℤ) - ((23 : ℕ) : ℤ)) = 1 := by
    have hexp : (23 : ℤ) - ((23 : ℕ) : ℤ) = 0 := by norm_num
    rw [hexp, zpow_zero]
  rw [h1]
  exact hq

/-- No float32 lies between one tenth and the `double` literal `0.1`. -/
theorem float32_ge_tenth (bits : Nat) (q : ℚ) (h : float32Value bits = some q)
    (hq : 1 / 10 ≤ q) : DOUBLE_0_1 ≤ q := by
  obtain ⟨n, hn⟩ := float32_grid27 bits q h (by linarith)
  have h1 : (134217728 : ℚ) ≤ (n : ℚ) * 10 := by
    rw [hn] at hq
    have h27 : (2 : ℚ) ^ 27 = 134217728 := by norm_num
    rw [h27] at hq
    rw [le_div_iff₀ (by norm_num : (0 : ℚ) < 134217728)] at hq
    linarith
  have h2 : 134217728 ≤ n * 10 := by exact_mod_cast h1
  have h3 : 13421773 ≤ n := by omega
  have h4 : (13421773 : ℚ) ≤ (n : ℚ) := by exact_mod_cast h3
  rw [hn, DOUBLE_0_1]
  have h27 : (2 : ℚ) ^ 27 = 134217728 := by norm_num
  rw [h27, le_div_iff₀ (by norm_num : (0 : ℚ) < 134217728)]
  linarith

/-- No float32 lies between the `double` literal `1.21` and 121/100. -/
theorem float32_le_121 (bits : Nat) (q : ℚ) (h : float32Value bits = some q)
    (hq : q ≤ 121 / 100) : q ≤ DOUBLE_1_21 := by
  by_cases h1 : 1 ≤ q
  · obtain ⟨n, hn⟩ := float32_grid23 bits q h h1
    have h23 : (2 : ℚ) ^ 23 = 8388608 := by norm_num
    have ha : (n : ℚ) * 100 ≤ 1015021568 := by
      rw [hn, h23, div_le_iff₀ (by norm_num : (0 : ℚ) < 8388608)] at hq
      linarith
    have hb : n * 100 ≤ 1015021568 := by exact_mod_cast ha
    have hc : n ≤ 10150215 := by omega
    have hd : (n : ℚ) ≤ 10150215 := by exact_mod_cast hc
    rw [hn, DOUBLE_1_21, h23, div_le_iff₀ (by norm_num : (0 : ℚ) < 8388608)]
    norm_num
    linarith
  · push_neg at h1
    have hD : (1 : ℚ) ≤ DOUBLE_1_21 := by
      rw [DOUBLE_1_21]
      norm_num
    linarith

/-- On float32 values the handler comparisons `>= 0.1 && <= 1.21` against the `double`
literals decide membership of the real interval from 1/10 to 121/100. -/
theorem current_checks_eq_domain (v : Nat) :
    ((floatVal v).ge DOUBLE_0_1 && (floatVal v).le DOUBLE_1_21)
      = ((floatVal v).ge (1 / 10) && (floatVal v).le (121 / 100)) := by
  have hlo : (1 : ℚ) / 10 ≤ DOUBLE_0_1 := by
    rw [DOUBLE_0_1]
    norm_num
  have hhi : DOUBLE_1_21 ≤ (121 : ℚ) / 100 := by
    rw [DOUBLE_1_21]
    norm_num
  unfold floatVal
  cases hv : float32Value v with
  | none =>
    simp only
    split_ifs <;> simp [FloatVal.ge, FloatVal.le]
  | some q =>
    simp only [FloatVal.ge, FloatVal.le]
    by_cases h1 : 1 / 10 ≤ q
    · by_cases h2 : q ≤ 121 / 100
      · have h3 := float32_ge_tenth v q hv h1
        have h4 := float32_le_121 v q hv h2
        rw [decide_eq_true h1, decide_eq_true h2, decide_eq_true h3, decide_eq_true h4]
      · have h4 : ¬ q ≤ DOUBLE_1_21 := fun h => h2 (le_trans h hhi)
        rw [decide_eq_false h2, decide_eq_false h4, Bool.and_false, Bool.and_false]
    · have h3 : ¬ DOUBLE_0_1 ≤ q := fun h => h1 (le_trans hlo h)
      rw [decide_eq_false h1, decide_eq_false h3, Bool.false_and, Bool.false_and]

/-! ## Validation and replies of the write handlers -/

/-- A request to one of the six float routes without any parameter carries no argument:
the handler goes through the null pointer of `getParam(0)` and sends no reply. -/
theorem float_route_without_parameter (str : Nat → String) (sndStat now : Nat) (s : Sys) :
    (HttpWrite.perm_v none).serve str sndStat now s = none ∧
      (HttpWrite.online_v none).serve str sndStat now s = none ∧
      (HttpWrite.perm_c none).serve str sndStat now s = none ∧
      (HttpWrite.online_c none).serve str sndStat now s = none ∧
      (HttpWrite.diesel_input_c none).serve str sndStat now s = none ∧
      (HttpWrite.walk_in_time none).serve str sndStat now s = none :=
  ⟨rfl, rfl, rfl, rfl, rfl, rfl⟩

/-- The float32 pattern `0x42520000` denotes 105/2. -/
theorem floatVal_52_5 : floatVal 0x42520000 = FloatVal.fin (105 / 2) := by
  simp only [floatVal, float32Value]
  norm_num

/-- C14, as stated, fails: permanent voltage 52.5 V is in its domain, the controller
rejects the frame (status 7), and the reply is code 200 with the "Command sent"
acknowledgement, the same reply as when the controller accepts the frame. -/
theorem failed_send_acknowledged_counterexample :
    specInDomain (WriteRequest.perm_v 0x42520000) = true ∧ (7 : Nat) ≠ CAN_OK ∧
      ((WriteRequest.perm_v 0x42520000).handle (fun _ => "52.50") 7 0 Sys.init).2.code = 200 ∧
      ((WriteRequest.perm_v 0x42520000).handle (fun _ => "52.50") 7 0 Sys.init).2.body
        = "Command sent: set_perm_v 52.50. Please wait 45 seconds for confirmation." ∧
      ((WriteRequest.perm_v 0x42520000).handle (fun _ => "52.50") 7 0 Sys.init).2
        = ((WriteRequest.perm_v 0x42520000).handle (fun _ => "52.50") CAN_OK 0 Sys.init).2 := by
  have hin : (floatVal 0x42520000).gt 0 = true := by
    simp only [floatVal_52_5, FloatVal.gt]
    norm_num
  refine ⟨?_, by decide, ?_, ?_, ?_⟩
  · simp only [specInDomain, hin]
  · simp only [WriteRequest.handle, set_perm_v, hin]
    rfl
  · simp only [WriteRequest.handle, set_perm_v, hin]
    decide
  · simp only [WriteRequest.handle, set_perm_v, hin]
    rfl

/-- C14, amended: for every write request with an in-domain argument, the reply given to
the network caller does not depend on the status of the transmission: when the controller
rejects the frame the handler still answers with code 200 and the same "Command sent"
acknowledgement as when the frame is accepted. -/
theorem failed_send_still_acknowledged (str : Nat → String) (r : WriteRequest)
    (sndStat now : Nat) (s : Sys) (hin : specInDomain r = true) :
    (r.handle str sndStat now s).2.code = 200 ∧
      (r.handle str sndStat now s).2 = (r.handle str CAN_OK now s).2 := by
  cases r with
  | perm_v v =>
    simp only [specInDomain] at hin
    simp [WriteRequest.handle, set_perm_v, hin]
  | online_v v =>
    simp only [specInDomain] at hin
    simp [WriteRequest.handle, set_online_v, hin]
  | perm_c v =>
    simp only [specInDomain] at hin
    have hc := current_checks_eq_domain v
    rw [hin] at hc
    simp only [WriteRequest.handle, set_perm_c, hc]
    simp
  | online_c v =>
    simp only [specInDomain] at hin
    have hc := current_checks_eq_domain v
    rw [hin] at hc
    simp only [WriteRequest.handle, set_online_c, hc]
    simp
  | diesel_input_c v =>
    simp only [specInDomain] at hin
    simp only [WriteRequest.handle, set_diesel_input_c, hin]
    simp
  | walk_in_time v =>
    simp only [specInDomain] at hin
    simp [WriteRequest.handle, set_walk_in_time, hin]
  | fan_speed p =>
    simp only [specInDomain, Bool.or_eq_true, decide_eq_true_eq] at hin
    rcases hin with h | h <;> subst h <;> simp [WriteRequest.handle, set_fan_speed]
  | walk_in p =>
    simp only [specInDomain, Bool.or_eq_true, decide_eq_true_eq] at hin
    rcases hin with h | h <;> subst h <;> simp [WriteRequest.handle, set_walk_in]

/-- Instance of the amended C14: fan speed `full`, frame rejected with status 7. -/
theorem failed_send_still_acknowledged_witness :
    specInDomain (WriteRequest.fan_speed (some "full")) = true ∧
      ((WriteRequest.fan_speed (some "full")).handle (fun _ => "") 7 0 Sys.init).2.code = 200 ∧
      ((WriteRequest.fan_speed (some "full")).handle (fun _ => "") 7 0 Sys.init).2
        = ((WriteRequest.fan_speed (some "full")).handle (fun _ => "") CAN_OK 0 Sys.init).2 :=
  ⟨by decide, failed_send_still_acknowledged (fun _ => "") (WriteRequest.fan_speed (some "full"))
    7 0 Sys.init (by decide)⟩

/-! ## Status query -/

theorem toLong_of_lt (u : Nat) (h : u < 2147483648) : toLong u = (u : ℤ) := by
  have hm : u % ULONG_MOD = u := by
    apply Nat.mod_eq_of_lt
    simp only [ULONG_MOD]
    omega
  unfold toLong
  rw [hm, if_pos h]

theorem wrapLong_of_range (i : ℤ) (h1 : -2147483648 ≤ i) (h2 : i < 2147483648) :
    wrapLong i = i := by
  unfold wrapLong
  omega


/-- C15, as stated, fails: with the window pending since clock value 0, a status query at
clock value 10001 (elapsed 10001 ms) reports `remainingTime` 34, while the formula
`max(0, ceil((45000 - elapsed) / 1000))` gives 35. -/
theorem remaining_time_not_ceil_counterexample :
    pendingSinceZero.g.isCommandPending = true ∧
      usub 10001 pendingSinceZero.g.commandSentTime = 10001 ∧
      (getData 10001 pendingSinceZero).remainingTime = 34 ∧
      specRemainingTime 10001 = 35 := by
  refine ⟨rfl, by decide, by decide, ?_⟩
  have hceil : ⌈((45000 : ℚ) - ((10001 : ℕ) : ℚ)) / 1000⌉ = 35 := by
    rw [Int.ceil_eq_iff]
    norm_num
  simp only [specRemainingTime, hceil]
  decide

/-- C15, amended: a status query made while a window is pending, with
`elapsed = now - commandSentTime` (unsigned 32-bit difference) below `2^31`, reports
`isCommandPending` true and `remainingTime = max(0, floor((45000 - elapsed) / 1000))`;
when no window is pending it reports 0. Permanent voltage 52.5 V accepted at `t`, status
query 10000 ms later: `isCommandPending` true and `remainingTime` 35. -/
theorem remaining_time_truncates (now : Nat) (s : Sys) :
    (s.g.isCommandPending = true → usub now s.g.commandSentTime < 2 ^ 31 →
        (getData now s).isCommandPending = true ∧
        (getData now s).remainingTime
          = max 0 ⌊((45000 : ℚ) - (usub now s.g.commandSentTime : ℚ)) / 1000⌋) ∧
      (s.g.isCommandPending = false → (getData now s).remainingTime = 0) ∧
      (∀ t : Nat, t < 2 ^ 32 →
        (getData ((t + 10000) % 2 ^ 32)
          (setVertivVoltagePermanent 0x42520000 CAN_OK t s)).isCommandPending = true ∧
        (getData ((t + 10000) % 2 ^ 32)
          (setVertivVoltagePermanent 0x42520000 CAN_OK t s)).remainingTime = 35) := by
  refine ⟨?_, ?_, ?_⟩
  · intro hp hlt
    refine ⟨by simp [getData, hp], ?_⟩
    have hfloor : ⌊((45000 : ℚ) - (usub now s.g.commandSentTime : ℚ)) / 1000⌋
        = ((45000 : ℤ) - (usub now s.g.commandSentTime : ℤ)) / 1000 := by
      have h := Rat.floor_intCast_div_natCast
        ((45000 : ℤ) - (usub now s.g.commandSentTime : ℤ)) 1000
      push_cast at h
      exact h
    rw [hfloor]
    have hlt2 : usub now s.g.commandSentTime < 2147483648 := by
      have h31 : (2 : ℕ) ^ 31 = 2147483648 := by norm_num
      omega
    have hrem : (getData now s).remainingTime
        = if (45000 : ℤ) - (usub now s.g.commandSentTime : ℤ) > 0
          then ((45000 : ℤ) - (usub now s.g.commandSentTime : ℤ)) / 1000 else 0 := by
      have h1 : toLong PERMANENT_COMMAND_DELAY = 45000 := by decide
      have h2 := toLong_of_lt (usub now s.g.commandSentTime) hlt2
      have h3 : wrapLong ((45000 : ℤ) - (usub now s.g.commandSentTime : ℤ))
          = (45000 : ℤ) - (usub now s.g.commandSentTime : ℤ) :=
        wrapLong_of_range _ (by omega) (by omega)
      simp only [getData, hp, if_true, h1, h2, h3]
    rw [hrem]
    generalize usub now s.g.commandSentTime = el
    split_ifs with hgt
    · have hd : 0 ≤ ((45000 : ℤ) - (el : ℤ)) / 1000 := by omega
      rw [max_eq_right hd]
    · have hd : ((45000 : ℤ) - (el : ℤ)) / 1000 ≤ 0 := by omega
      rw [max_eq_left hd]
  · intro hp
    simp [getData, hp]
  · intro t ht
    have hel : usub ((t + 10000) % 2 ^ 32) t = 10000 := usub_wrap t 10000 ht (by norm_num)
    simp only [getData, setVertivVoltagePermanent, if_true, hel]
    decide

/-- Instance of the amended C15: permanent voltage 52.5 V accepted at clock value 7000,
status query at 17000. -/
theorem remaining_time_truncates_witness :
    (getData 17000 (setVertivVoltagePermanent 0x42520000 CAN_OK 7000 Sys.init)).isCommandPending
        = true ∧
      (getData 17000 (setVertivVoltagePermanent 0x42520000 CAN_OK 7000 Sys.init)).remainingTime
        = 35 :=
  (remaining_time_truncates 0 Sys.init).2.2 7000 (by norm_num)

/-! ## Upper endpoint of the current-limit domain -/

/-- The float32 pattern `0x3F9AE148` denotes 1268777/1048576 = 1.2100000381469727. -/
theorem float32Value_121 : float32Value 0x3F9AE148 = some (1268777 / 1048576) := by
  simp only [float32Value]
  norm_num

/-- C16, failing input: the decimal argument 1.21, the upper endpoint of the documented
domain. The float32 nearest to 121/100 is the pattern `0x3F9AE148` (no float32 is closer),
its value 1268777/1048576 exceeds the `double` literal `1.21`, and both current-limit
handlers answer it with code 400 "Invalid current percentage." and leave the system as it
was: no frame is sent. -/
theorem current_limit_upper_endpoint_rejected :
    float32Value 0x3F9AE148 = some (1268777 / 1048576) ∧
      (∀ (bits : Nat) (y : ℚ), float32Value bits = some y →
        |(1268777 / 1048576 : ℚ) - 121 / 100| ≤ |y - 121 / 100|) ∧
      DOUBLE_1_21 < 1268777 / 1048576 ∧
      (∀ (str : Nat → String) (sndStat now : Nat) (s : Sys),
        set_perm_c str 0x3F9AE148 sndStat now s
          = (s, { code := 400, contentType := "text/plain",
                  body := "Invalid current percentage." }) ∧
        set_online_c str 0x3F9AE148 sndStat s
          = (s, { code := 400, contentType := "text/plain",
                  body := "Invalid current percentage." })) := by
  have hgt : DOUBLE_1_21 < 1268777 / 1048576 := by
    rw [DOUBLE_1_21]
    norm_num
  have hle : (floatVal 0x3F9AE148).le DOUBLE_1_21 = false := by
    simp only [floatVal, float32Value_121, FloatVal.le]
    exact decide_eq_false (not_le.mpr hgt)
  refine ⟨float32Value_121, ?_, hgt, ?_⟩
  · intro bits y hy
    have hx : |(1268777 / 1048576 : ℚ) - 121 / 100| = 1268777 / 1048576 - 121 / 100 := by
      apply abs_of_nonneg
      norm_num
    rw [hx, le_abs]
    by_cases h1 : 1 ≤ y
    · obtain ⟨n, hn⟩ := float32_grid23 bits y hy h1
      have h23 : (2 : ℚ) ^ 23 = 8388608 := by norm_num
      rw [h23] at hn
      by_cases hn2 : 10150216 ≤ n
      · left
        have hq : (10150216 : ℚ) ≤ (n : ℚ) := by exact_mod_cast hn2
        have hy2 : (10150216 : ℚ) / 8388608 ≤ y := by
          rw [hn]
          apply div_le_div_of_nonneg_right hq
          norm_num
        linarith
      · right
        have hn3 : n ≤ 10150215 := by omega
        have hq : (n : ℚ) ≤ 10150215 := by exact_mod_cast hn3
        have hy2 : y ≤ (10150215 : ℚ) / 8388608 := by
          rw [hn]
          apply div_le_div_of_nonneg_right hq
          norm_num
        linarith
    · right
      push_neg at h1
      linarith
  · intro str sndStat now s
    constructor
    · simp only [set_perm_c, hle, Bool.and_false]
      rfl
    · simp only [set_online_c, hle, Bool.and_false]
      rfl

/-! ## Receive step of the tick -/

/-- C17, as stated, fails: with two response frames waiting (output voltage 52.5, output
current 4.0), one tick parses only the first; the second is still waiting afterwards and
`outputCurrent` is still 0, whereas draining the queue would have stored `0x40800000`. -/
theorem tick_leaves_second_frame_counterexample :
    twoFramesWaiting.rx.length = 2 ∧
      (loop (TickEnv.instant 0 0 0) twoFramesWaiting).rx = [frameCurrent4] ∧
      (loop (TickEnv.instant 0 0 0) twoFramesWaiting).g.outputVoltage = 0x42520000 ∧
      (loop (TickEnv.instant 0 0 0) twoFramesWaiting).g.outputCurrent = 0 ∧
      (specDrain twoFramesWaiting).g.outputCurrent = 0x40800000 ∧
      loop (TickEnv.instant 0 0 0) twoFramesWaiting
        ≠ loopExpiry (TickEnv.instant 0 0 0)
            (loopPoll (TickEnv.instant 0 0 0) (specDrain twoFramesWaiting)) := by
  decide

/-- C17, amended: in every tick, with any number of frames waiting at its start, exactly
the oldest waiting frame (none when the queue is empty) is passed through the frame
parser, before the polling sequencer and the expiry check run; the other frames stay in
the controller, in order, for later ticks. -/
theorem tick_parses_oldest_frame (e : TickEnv) (s : Sys) :
    loop e s = loopExpiry e (loopPoll e
        { s with rx := s.rx.drop 1
                 g := (s.rx.take 1).foldl (fun g f => parseFrame f g) s.g }) ∧
      (loop e s).rx = s.rx.drop 1 ∧
      (∀ f rest, s.rx = f :: rest →
        (processIncomingCanMessages s).g = parseFrame f s.g ∧ (loop e s).rx = rest) ∧
      (s.rx = [] → processIncomingCanMessages s = s) := by
  have hh := process_head s
  have hrx : (loop e s).rx = s.rx.drop 1 := by
    unfold loop
    rw [loopExpiry_rx, loopPoll_rx, hh]
  refine ⟨?_, hrx, ?_, ?_⟩
  · unfold loop
    rw [hh]
  · intro f rest hfr
    constructor
    · simp [processIncomingCanMessages, hfr]
    · rw [hrx, hfr]
      rfl
  · intro hnil
    simp [processIncomingCanMessages, hnil]

/-- Instance of the amended C17: with the two response frames waiting, the tick parses the
voltage frame and the current frame is the one left waiting. -/
theorem tick_parses_oldest_frame_witness :
    twoFramesWaiting.rx = frame525 :: [frameCurrent4] ∧
      (processIncomingCanMessages twoFramesWaiting).g = parseFrame frame525 twoFramesWaiting.g ∧
      (loop (TickEnv.instant 0 0 0) twoFramesWaiting).rx = [frameCurrent4] :=
  ⟨rfl, (tick_parses_oldest_frame (TickEnv.instant 0 0 0) twoFramesWaiting).2.2.1
    frame525 [frameCurrent4] rfl⟩

/-! ## Clock wraparound -/

/-- C18: with 32-bit clock values and subtraction modulo `2^32`, a tick whose expiry check
reads `now = (commandSentTime + d) mod 2^32`, for a true elapsed time `d < 2^32` and the
window pending, clears the window exactly when `45000 < d`; and a tick in `readState = 0`
with no window pending whose poll check reads `now = (lastRequestTime + d) mod 2^32` sends
the read request for the output voltage exactly when `5000 < d`, also when `now` is
numerically below the stored timestamp. -/
theorem timers_survive_wraparound (e : TickEnv) (s : Sys) (d : Nat) (hd : d < 2 ^ 32) :
    (s.g.isCommandPending = true → s.g.commandSentTime < 2 ^ 32 →
        e.millisExpiry = (s.g.commandSentTime + d) % 2 ^ 32 →
        ((loop e s).g.isCommandPending = false ↔ 45000 < d)) ∧
      (s.g.isCommandPending = false → s.g.readState = 0 → s.g.lastRequestTime < 2 ^ 32 →
        e.millisPoll = (s.g.lastRequestTime + d) % 2 ^ 32 →
        (5000 < d → (loop e s).tx = s.tx ++ [specReadFrame 0x01] ∧
          (loop e s).g.readState = 1 ∧ (loop e s).g.lastRequestTime = e.millisStamp) ∧
        (d ≤ 5000 → (loop e s).tx = s.tx ∧ (loop e s).g.readState = 0 ∧
          (loop e s).g.lastRequestTime = s.g.lastRequestTime)) := by
  have h1 := process_timers s
  constructor
  · intro hp hsent hnow
    have hiff := loop_clears_iff e s hp
    rw [hnow, usub_wrap _ _ hsent hd] at hiff
    exact hiff
  · intro hp hrs hlast hnow
    have hp1 : (processIncomingCanMessages s).g.isCommandPending = false := by rw [h1.1, hp]
    have hw := loopPoll_window e (processIncomingCanMessages s)
    have hexp : loop e s = loopPoll e (processIncomingCanMessages s) := by
      unfold loop loopExpiry
      rw [if_neg]
      rw [hw.1, hp1]
      simp
    have hel : usub e.millisPoll (processIncomingCanMessages s).g.lastRequestTime = d := by
      rw [h1.2.2.1, hnow]
      exact usub_wrap _ _ hlast hd
    have hrs1 : (processIncomingCanMessages s).g.readState = 0 := by rw [h1.2.2.2.1, hrs]
    constructor
    · intro hfire
      rw [hexp]
      simp only [loopPoll, hp1, hrs1, hel, POLLING_INTERVAL, readVertivSetting, OUTPUT_VOLTAGE]
      simp [hfire, h1.2.2.2.2, specReadFrame, VERTIV_READ_REQUEST_ID]
    · intro hno
      rw [hexp]
      have hnot : ¬ d > 5000 := by omega
      simp only [loopPoll, hp1, hrs1, hel, POLLING_INTERVAL]
      simp [hnot, h1.2.2.2.2, h1.2.2.1, hrs1]

/-- Instance of C18: window armed at clock value `2^32 - 1000`; 45001 ms later the clock
reads 44001, numerically below the stored timestamp, and the tick clears the window. -/
theorem timers_survive_wraparound_witness :
    pendingBeforeWrap.g.commandSentTime = 4294966296 ∧
      (TickEnv.instant 44001 0 0).millisExpiry = (4294966296 + 45001) % 2 ^ 32 ∧
      (loop (TickEnv.instant 44001 0 0) pendingBeforeWrap).g.isCommandPending = false :=
  ⟨rfl, by norm_num [TickEnv.instant],
    ((timers_survive_wraparound (TickEnv.instant 44001 0 0) pendingBeforeWrap 45001
      (by norm_num)).1 rfl (by norm_num [pendingBeforeWrap]) (by
        norm_num [TickEnv.instant, pendingBeforeWrap])).mpr (by norm_num)⟩

end Vertiv
